import Mathlib

/-! SelectedCellUtils

A shallow embedding of `packages/react-data-grid/src/utils/SelectedCellUtils.js`
and the properties of its selection geometry, navigation policy, editable-cell
search and grid-exit predicate.

Conventions of the embedding

* JavaScript numbers that hold indices, counts and pixel values are `Int`
  (exact for the integer values a grid uses); `columns.length` is the length of
  a `List`, cast to `Int`.
* A call that throws is an explicit `Fault`; a loop is a body function iterated
  under a step budget, `none` meaning that the budget ran out before the loop
  left.
* The module imports `getColumn`, `isFrozen`, `canEdit`, the navigation
  constants and the z-index constants from files outside this source tree.
  `canEdit` and the z-index constants are parameters; the others are small
  definitions marked as modelled.
-/

namespace SelectedCellUtils

/-! ## Data model -/

/-- Faults a call can end in. -/
inductive Fault where
  /-- Reading or (in strict code) assigning an identifier no scope binds. -/
  | referenceError (name : String)
  /-- Reading a property of `undefined`. -/
  | typeError
  deriving DecidableEq, Repr

/-- A grid position `{ idx, rowIdx }`. -/
structure Position where
  idx : Int
  rowIdx : Int
  deriving DecidableEq, Repr

/-- A selected range `{ topLeft, bottomRight }`. -/
structure SelectedRange where
  topLeft : Position
  bottomRight : Position
  deriving DecidableEq, Repr

/-- A position together with the `changeRowOrColumn` flag, as the navigation
functions return it. -/
structure Cell where
  idx : Int
  rowIdx : Int
  changeRowOrColumn : Bool
  deriving DecidableEq, Repr

/-- The fields of a column descriptor that this module reads. -/
structure Column where
  key : String
  width : Int
  left : Int
  frozen : Bool
  deriving DecidableEq, Repr

/-- The rectangle `{ width, left, top, height, zIndex }`. -/
structure Dimensions where
  width : Int
  left : Int
  top : Int
  height : Int
  zIndex : Int
  deriving DecidableEq, Repr

/-- The constants of `common/constants/zIndexes` that the module reads; the file
is outside the source tree, so the two values are a parameter. -/
structure ZIndexes where
  CELL_MASK : Int
  FROZEN_CELL_MASK : Int
  deriving DecidableEq, Repr

/-- Modelled from the spec: `CellNavigationMode` of `common/constants` is not in
the source tree; section 3 gives the navigation mode as the closed enumeration
NONE, CHANGE_ROW, LOOP_OVER_ROW. -/
inductive CellNavigationMode where
  | NONE
  | CHANGE_ROW
  | LOOP_OVER_ROW
  deriving DecidableEq, Repr

/-- Modelled from the spec: the direction constants of `common/constants` are not
in the source tree; section 3 gives the direction enumeration NEXT_CELL,
PREV_CELL. An absent direction (`undefined` or `null`) is `none` of
`Option Direction`. -/
inductive Direction where
  | NEXT_CELL
  | PREV_CELL
  deriving DecidableEq, Repr

/-- The part of the keyboard event that `canExitGrid` reads. -/
structure KeyEvent where
  shiftKey : Bool
  deriving DecidableEq, Repr

/-- The argument `{ row, column, idx, rowIdx }` handed to `onCheckCellIsEditable`. -/
structure CheckArgs (Row : Type) where
  row : Row
  column : Option Column
  idx : Int
  rowIdx : Int

/-- What the global scope holds for the two identifiers that
`getNextOrPrevEditableCell` uses without declaring them: whether `stop` is bound
(a browser window binds it, as `window.stop`), and the value of a global
`selectedPosition` if there is one. -/
structure Host where
  stop : Bool
  selectedPosition : Option Position
  deriving DecidableEq, Repr

/-- How a run of the editable-cell search ends. -/
inductive SearchResult where
  /-- `return cellToCheck`. -/
  | found (cell : Cell)
  /-- `return null`. -/
  | notFound
  /-- The call threw. -/
  | threw (fault : Fault)
  deriving DecidableEq, Repr

/-- How one pass through the body of the search loop ends. -/
inductive Step where
  /-- The pass reaches the end of the body with this `currentCell`. -/
  | next (currentCell : Cell)
  /-- The pass leaves the function. -/
  | done (result : SearchResult)
  deriving DecidableEq, Repr

/-! ## Collaborators -/

/-- Modelled from the spec: `getColumn` of `ColumnUtils` is not in the source
tree; section 6 gives it as the column accessor that returns the column at
`idx` and `undefined` (here `none`) for an index out of range. -/
def getColumn (columns : List Column) (idx : Int) : Option Column :=
  if idx < 0 then none else columns[idx.toNat]?

/-- Modelled from the spec: `isFrozen` of `ColumnUtils` is not in the source
tree; section 3 gives a column the boolean `frozen`. -/
def isFrozen (column : Column) : Bool :=
  column.frozen

/-! ## Selection geometry -/

/-- `getRowTop = (rowIdx, rowHeight) => rowIdx * rowHeight`. -/
def getRowTop (rowIdx rowHeight : Int) : Int :=
  rowIdx * rowHeight

/-- `getSelectedRow`: the row of the selected position. -/
def getSelectedRow {Row : Type} (selectedPosition : Position) (rowGetter : Int → Row) : Row :=
  rowGetter selectedPosition.rowIdx

/-- `getSelectedDimensions`. Reading `width` of a column that `getColumn` did not
find throws a `TypeError`. -/
def getSelectedDimensions (z : ZIndexes) (selectedPosition : Position)
    (columns : List Column) (rowHeight scrollLeft : Int) : Except Fault Dimensions :=
  let idx := selectedPosition.idx
  let rowIdx := selectedPosition.rowIdx
  if idx ≥ 0 then
    match getColumn columns idx with
    | none => .error .typeError
    | some column =>
      let frozen := isFrozen column
      let width := column.width
      let left := if frozen then column.left + scrollLeft else column.left
      let top := getRowTop rowIdx rowHeight
      let zIndex := if frozen then z.FROZEN_CELL_MASK else z.CELL_MASK
      .ok { width := width, left := left, top := top, height := rowHeight, zIndex := zIndex }
  else
    .ok { width := 0, left := 0, top := 0, height := rowHeight, zIndex := 1 }

/-- The result `{ totalWidth, anyColFrozen, left }` of `getColumnRangeProperties`. -/
structure ColumnRangeProperties where
  totalWidth : Int
  anyColFrozen : Bool
  left : Int
  deriving DecidableEq, Repr

/-- The `for (let i = from; i <= to; i++)` loop of `getColumnRangeProperties`,
run for `n` further passes from index `i` with the accumulators
`totalWidth` and `anyColFrozen`. -/
def getColumnRangeLoop (columns : List Column) :
    Nat → Int → Int → Bool → Except Fault (Int × Bool)
  | 0, _, totalWidth, anyColFrozen => .ok (totalWidth, anyColFrozen)
  | n + 1, i, totalWidth, anyColFrozen =>
    match getColumn columns i with
    | none => .error .typeError
    | some column =>
      getColumnRangeLoop columns n (i + 1) (totalWidth + column.width)
        (anyColFrozen || isFrozen column)

/-- `getColumnRangeProperties(from, to, columns)`; the loop makes
`to - from + 1` passes (none when `to < from`). -/
def getColumnRangeProperties (fromIdx toIdx : Int) (columns : List Column) :
    Except Fault ColumnRangeProperties :=
  match getColumnRangeLoop columns (toIdx - fromIdx + 1).toNat fromIdx 0 false with
  | .error f => .error f
  | .ok (totalWidth, anyColFrozen) =>
    match getColumn columns fromIdx with
    | none => .error .typeError
    | some column =>
      .ok { totalWidth := totalWidth, anyColFrozen := anyColFrozen, left := column.left }

/-- `getSelectedRangeDimensions`. -/
def getSelectedRangeDimensions (z : ZIndexes) (selectedRange : SelectedRange)
    (columns : List Column) (rowHeight : Int) : Except Fault Dimensions :=
  let topLeft := selectedRange.topLeft
  let bottomRight := selectedRange.bottomRight
  if topLeft.idx < 0 then
    .ok { width := 0, left := 0, top := 0, height := rowHeight, zIndex := z.CELL_MASK }
  else
    match getColumnRangeProperties topLeft.idx bottomRight.idx columns with
    | .error f => .error f
    | .ok r =>
      let top := getRowTop topLeft.rowIdx rowHeight
      let height := (bottomRight.rowIdx - topLeft.rowIdx + 1) * rowHeight
      let zIndex := if r.anyColFrozen then z.FROZEN_CELL_MASK else z.CELL_MASK
      .ok { width := r.totalWidth, left := r.left, top := top, height := height,
            zIndex := zIndex }

/-- `getSelectedColumn`: the column of the selected position. -/
def getSelectedColumn (selectedPosition : Position) (columns : List Column) : Option Column :=
  getColumn columns selectedPosition.idx

/-- `isSelectedCellEditable`; `canEdit` of `ColumnUtils` is a parameter, and
`onCheckCellIsEditable` is `none` when the caller passes no function. -/
def isSelectedCellEditable {Row : Type} (canEdit : Option Column → Row → Bool → Bool)
    (enableCellSelect : Bool) (selectedPosition : Position) (columns : List Column)
    (rowGetter : Int → Row) (onCheckCellIsEditable : Option (CheckArgs Row → Bool)) : Bool :=
  let column := getSelectedColumn selectedPosition columns
  let row := getSelectedRow selectedPosition rowGetter
  let isCellEditable :=
    match onCheckCellIsEditable with
    | some check =>
      check { row := row, column := column, idx := selectedPosition.idx,
              rowIdx := selectedPosition.rowIdx }
    | none => true
  canEdit column row enableCellSelect && isCellEditable

/-! ## Navigation policy -/

/-- `getNextSelectedCellPosition({ cellNavigationMode, columns, rowsCount }, nextPosition)`. -/
def getNextSelectedCellPosition (cellNavigationMode : CellNavigationMode)
    (columns : List Column) (rowsCount : Int) (nextPosition : Position) : Cell :=
  let unchanged : Cell :=
    { idx := nextPosition.idx, rowIdx := nextPosition.rowIdx, changeRowOrColumn := false }
  if cellNavigationMode ≠ CellNavigationMode.NONE then
    let idx := nextPosition.idx
    let rowIdx := nextPosition.rowIdx
    let isAfterLastColumn : Bool := idx = (columns.length : Int)
    let isBeforeFirstColumn : Bool := idx = -1
    if isAfterLastColumn then
      if cellNavigationMode = CellNavigationMode.CHANGE_ROW then
        let isLastRow : Bool := rowIdx = rowsCount - 1
        if !isLastRow then
          { idx := 0, rowIdx := rowIdx + 1, changeRowOrColumn := true }
        else unchanged
      else if cellNavigationMode = CellNavigationMode.LOOP_OVER_ROW then
        { rowIdx := rowIdx, idx := 0, changeRowOrColumn := true }
      else unchanged
    else if isBeforeFirstColumn then
      if cellNavigationMode = CellNavigationMode.CHANGE_ROW then
        let isFirstRow : Bool := rowIdx = 0
        if !isFirstRow then
          { rowIdx := rowIdx - 1, idx := (columns.length : Int) - 1, changeRowOrColumn := true }
        else unchanged
      else if cellNavigationMode = CellNavigationMode.LOOP_OVER_ROW then
        { rowIdx := rowIdx, idx := (columns.length : Int) - 1, changeRowOrColumn := true }
      else unchanged
    else unchanged
  else unchanged

/-! ## Editable-cell search -/

/-- The evaluation of
`isFunction(onCheckCellIsEditable) ? onCheckCellIsEditable({ row, column, ...selectedPosition }) : true`
inside `getNextOrPrevEditableCell`, where `selectedPosition` is neither a
parameter nor a local nor a module binding: it is looked up in the global
scope, and the lookup throws when the global scope does not bind it. -/
def searchIsCellEditable {Row : Type} (host : Host)
    (onCheckCellIsEditable : Option (CheckArgs Row → Bool)) (row : Row)
    (column : Option Column) : Except Fault Bool :=
  match onCheckCellIsEditable with
  | some check =>
    match host.selectedPosition with
    | none => .error (.referenceError "selectedPosition")
    | some selectedPosition =>
      .ok (check { row := row, column := column, idx := selectedPosition.idx,
                   rowIdx := selectedPosition.rowIdx })
  | none => .ok true

/-- The statements `stop = true; return null;` of `getNextOrPrevEditableCell`.
The module declares no `stop`; module code is strict, so the assignment goes
to a global `stop` when there is one and throws otherwise. -/
def searchStop (host : Host) : SearchResult :=
  if host.stop then .notFound else .threw (.referenceError "stop")

/-- One pass through the body of the `while (!stopLooking)` loop of
`getNextOrPrevEditableCell`. `rowIdx` is the row index of `currentPosition`,
which the row wrap reads; `currentCell` is the loop variable. -/
def searchBody {Row : Type} (host : Host) (canEdit : Option Column → Row → Bool → Bool)
    (direction : Option Direction) (columns : List Column) (rowsCount : Int) (rowIdx : Int)
    (enableCellSelect : Bool) (rowGetter : Int → Row)
    (onCheckCellIsEditable : Option (CheckArgs Row → Bool)) (currentCell : Cell) : Step :=
  let isAfterLastColumn : Bool := currentCell.idx = (columns.length : Int)
  let isBeforeFirstColumn : Bool := currentCell.idx = -1
  let currentCell : Cell :=
    if isAfterLastColumn then
      let isLastRow : Bool := rowIdx = rowsCount - 1
      if !isLastRow then
        { idx := 0, rowIdx := rowIdx + 1, changeRowOrColumn := true }
      else currentCell
    else if isBeforeFirstColumn then
      let isFirstRow : Bool := rowIdx = 0
      if !isFirstRow then
        { rowIdx := rowIdx - 1, idx := (columns.length : Int) - 1, changeRowOrColumn := true }
      else currentCell
    else currentCell
  let cellToCheck : Cell :=
    { rowIdx := currentCell.rowIdx, idx := currentCell.idx,
      changeRowOrColumn := currentCell.changeRowOrColumn }
  let column := getColumn columns cellToCheck.idx
  let row := rowGetter cellToCheck.rowIdx
  match searchIsCellEditable host onCheckCellIsEditable row column with
  | .error fault => .done (.threw fault)
  | .ok isCellEditable =>
    if canEdit column row enableCellSelect && isCellEditable then
      .done (.found cellToCheck)
    else if direction = none ∨ direction = some Direction.NEXT_CELL then
      let currentCell : Cell :=
        { idx := cellToCheck.idx + 1, rowIdx := cellToCheck.rowIdx,
          changeRowOrColumn := cellToCheck.changeRowOrColumn }
      if currentCell.rowIdx = rowsCount - 1 ∧ currentCell.idx ≥ (columns.length : Int) then
        .done (searchStop host)
      else .next currentCell
    else
      let currentCell : Cell :=
        { idx := cellToCheck.idx - 1, rowIdx := cellToCheck.rowIdx,
          changeRowOrColumn := cellToCheck.changeRowOrColumn }
      if currentCell.rowIdx ≤ 0 ∧ currentCell.idx ≤ 0 then
        .done (searchStop host)
      else .next currentCell

/-- The `while (!stopLooking)` loop under a budget of passes. No statement
assigns `stopLooking`, so the loop is left only from inside its body. `none`
means the budget ran out with the loop still running. -/
def searchLoop (body : Cell → Step) : Nat → Cell → Option SearchResult
  | 0, _ => none
  | fuel + 1, currentCell =>
    match body currentCell with
    | .done result => some result
    | .next currentCell => searchLoop body fuel currentCell

/-- `getNextOrPrevEditableCell({ cellNavigationMode, direction, columns, rowsCount },
currentPosition, enableCellSelect, rowGetter, onCheckCellIsEditable)` under a
budget of `fuel` loop passes; each pass examines one cell. The function takes
`cellNavigationMode` and never reads it. -/
def getNextOrPrevEditableCell {Row : Type} (fuel : Nat) (host : Host)
    (canEdit : Option Column → Row → Bool → Bool)
    (cellNavigationMode : CellNavigationMode) (direction : Option Direction)
    (columns : List Column) (rowsCount : Int) (currentPosition : Position)
    (enableCellSelect : Bool) (rowGetter : Int → Row)
    (onCheckCellIsEditable : Option (CheckArgs Row → Bool)) : Option SearchResult :=
  let idx := currentPosition.idx
  let rowIdx := currentPosition.rowIdx
  let currentCell : Cell := { idx := idx, rowIdx := rowIdx, changeRowOrColumn := false }
  searchLoop
    (searchBody host canEdit direction columns rowsCount rowIdx enableCellSelect rowGetter
      onCheckCellIsEditable)
    fuel currentCell

/-! ## Grid exit and range utilities -/

/-- `canExitGrid(e, { cellNavigationMode, columns, rowsCount, selectedPosition })`. -/
def canExitGrid (e : KeyEvent) (cellNavigationMode : CellNavigationMode)
    (columns : List Column) (rowsCount : Int) (selectedPosition : Position) : Bool :=
  let rowIdx := selectedPosition.rowIdx
  let idx := selectedPosition.idx
  if cellNavigationMode = CellNavigationMode.NONE ∨
      cellNavigationMode = CellNavigationMode.CHANGE_ROW then
    let atLastCellInRow : Bool := idx = (columns.length : Int) - 1
    let atFirstCellInRow : Bool := idx = 0
    let atLastRow : Bool := rowIdx = rowsCount - 1
    let atFirstRow : Bool := rowIdx = 0
    let shift : Bool := e.shiftKey = true
    if shift then atFirstCellInRow && atFirstRow else atLastCellInRow && atLastRow
  else false

/-- `selectedRangeIsSingleCell(selectedRange)`. -/
def selectedRangeIsSingleCell (selectedRange : SelectedRange) : Bool :=
  selectedRange.topLeft.idx = selectedRange.bottomRight.idx &&
    selectedRange.topLeft.rowIdx = selectedRange.bottomRight.rowIdx

/-! ## Sample data -/

/-- A column of width 100 at the given left offset. -/
def sampleColumn (key : String) (left : Int) (frozen : Bool) : Column :=
  { key := key, width := 100, left := left, frozen := frozen }

/-- Five columns; the first one is frozen. -/
def fiveColumns : List Column :=
  [sampleColumn "a" 0 true, sampleColumn "b" 100 false, sampleColumn "c" 200 false,
   sampleColumn "d" 300 false, sampleColumn "e" 400 false]

/-- A single column. -/
def oneColumn : List Column :=
  [sampleColumn "a" 0 false]

/-- Sample z-index constants. -/
def sampleZIndexes : ZIndexes :=
  { CELL_MASK := 1, FROZEN_CELL_MASK := 3 }

/-- A browser-like global scope: `stop` is bound, `selectedPosition` is not. -/
def browserHost : Host :=
  { stop := true, selectedPosition := none }

/-- An editability test under which no cell can be edited. -/
def neverEditable : Option Column → Int → Bool → Bool :=
  fun _ _ _ => false

/-- An editability test that accepts the cells of row 2 only (rows are
represented by their index). -/
def editableInRowTwo : Option Column → Int → Bool → Bool :=
  fun column row enableCellSelect => enableCellSelect && column.isSome && row == 2

/-- The row accessor that represents a row by its index. -/
def rowByIndex : Int → Int :=
  fun rowIdx => rowIdx

/-- Two columns, neither frozen. -/
def twoColumns : List Column :=
  [sampleColumn "a" 0 false, sampleColumn "b" 100 false]

/-- An editability test that accepts the cells of the column with key "b" only. -/
def editableInColumnB : Option Column → Int → Bool → Bool :=
  fun column _ enableCellSelect =>
    enableCellSelect && (column.map (fun c => c.key) == some "b")

/-- An editability test that accepts the cells of the column with key "a" only. -/
def editableInColumnA : Option Column → Int → Bool → Bool :=
  fun column _ enableCellSelect =>
    enableCellSelect && (column.map (fun c => c.key) == some "a")

/-- An editability test that accepts the cells of row 0 only (rows are
represented by their index). -/
def editableInRowZero : Option Column → Int → Bool → Bool :=
  fun column row enableCellSelect => enableCellSelect && column.isSome && row == 0

/-! ## Editable-cell search: the states of a run -/

/-- The cell that a pass of the search loop examines: the loop variable
`currentCell` after the row wrap at the head of the body (the `cellToCheck` of
`searchBody`). -/
def examinedCell (columns : List Column) (rowsCount rowIdx : Int) (currentCell : Cell) : Cell :=
  if currentCell.idx = (columns.length : Int) then
    if rowIdx = rowsCount - 1 then currentCell
    else { idx := 0, rowIdx := rowIdx + 1, changeRowOrColumn := true }
  else if currentCell.idx = -1 then
    if rowIdx = 0 then currentCell
    else { rowIdx := rowIdx - 1, idx := (columns.length : Int) - 1, changeRowOrColumn := true }
  else currentCell

/-- The value of the loop variable `currentCell` at the head of the pass that
follows `k` completed passes, or `none` when the loop was left during one of
these `k` passes. -/
def searchState (body : Cell → Step) : Nat → Cell → Option Cell
  | 0, currentCell => some currentCell
  | k + 1, currentCell =>
    match body currentCell with
    | .done _ => none
    | .next currentCell => searchState body k currentCell

/-! ## Editable-cell search: the loop -/

/-- A loop whose body keeps an invariant and always reaches its end never leaves:
every budget runs out. -/
theorem searchLoop_none_of_invariant (body : Cell → Step) (inv : Cell → Prop)
    (hstep : ∀ c, inv c → ∃ c', body c = Step.next c' ∧ inv c') :
    ∀ (fuel : Nat) (c : Cell), inv c → searchLoop body fuel c = none := by
  intro fuel
  induction fuel with
  | zero => intro c _; rfl
  | succ n ih =>
    intro c hc
    obtain ⟨c', hbody, hc'⟩ := hstep c hc
    simp only [searchLoop, hbody]
    exact ih c' hc'

/-- A pass that leaves the function gives the result of the loop under every
positive budget. -/
theorem searchLoop_done (body : Cell → Step) (fuel : Nat) (c : Cell) (result : SearchResult)
    (h : body c = Step.done result) : searchLoop body (fuel + 1) c = some result := by
  simp only [searchLoop, h]

/-- One forward pass with no override, from a cell at a non-negative column in the
start row or the row after it, when the start row is at least two rows above
the last one and the examined cell cannot be edited: the pass reaches the end
of the body, again at a non-negative column in one of these two rows. -/
theorem searchBody_forward_stays {Row : Type} (host : Host)
    (canEdit : Option Column → Row → Bool → Bool) (direction : Option Direction)
    (columns : List Column) (rowsCount rowIdx : Int) (enableCellSelect : Bool)
    (rowGetter : Int → Row) (c : Cell)
    (hdir : direction = none ∨ direction = some Direction.NEXT_CELL)
    (hrows : rowIdx + 2 < rowsCount)
    (hedit : ∀ i r, (r = rowIdx ∨ r = rowIdx + 1) →
      canEdit (getColumn columns i) (rowGetter r) enableCellSelect = false)
    (hc : 0 ≤ c.idx ∧ (c.rowIdx = rowIdx ∨ c.rowIdx = rowIdx + 1)) :
    ∃ c', searchBody host canEdit direction columns rowsCount rowIdx enableCellSelect
        rowGetter none c = Step.next c' ∧
      (0 ≤ c'.idx ∧ (c'.rowIdx = rowIdx ∨ c'.rowIdx = rowIdx + 1)) := by
  obtain ⟨hidx, hrow⟩ := hc
  have hlast : ¬ (rowIdx = rowsCount - 1) := by omega
  have hm1 : ¬ (c.idx = -1) := by omega
  by_cases hend : c.idx = (columns.length : Int)
  · refine ⟨{ idx := 0 + 1, rowIdx := rowIdx + 1, changeRowOrColumn := true }, ?_, ?_⟩
    · have hrow1 : ¬ (rowIdx + 1 = rowsCount - 1) := by omega
      simp [searchBody, searchIsCellEditable, hend, hlast, hedit, hdir, hrow1]
    · exact ⟨by norm_num, Or.inr rfl⟩
  · refine ⟨{ idx := c.idx + 1, rowIdx := c.rowIdx,
              changeRowOrColumn := c.changeRowOrColumn }, ?_, ?_⟩
    · have hrowc : ¬ (c.rowIdx = rowsCount - 1) := by omega
      have he := hedit c.idx c.rowIdx hrow
      simp [searchBody, searchIsCellEditable, hend, hm1, he, hdir, hrowc]
    · exact ⟨by simp only; omega, hrow⟩

/-- A forward search with no override never returns when the start position has
a non-negative column, the start row is at least two rows above the last one
and no cell of the start row and of the row after it can be edited. -/
theorem search_forward_never_returns {Row : Type} (host : Host)
    (canEdit : Option Column → Row → Bool → Bool)
    (cellNavigationMode : CellNavigationMode) (direction : Option Direction)
    (columns : List Column) (rowsCount : Int) (currentPosition : Position)
    (enableCellSelect : Bool) (rowGetter : Int → Row)
    (hdir : direction = none ∨ direction = some Direction.NEXT_CELL)
    (hidx : 0 ≤ currentPosition.idx)
    (hrows : currentPosition.rowIdx + 2 < rowsCount)
    (hedit : ∀ i r, (r = currentPosition.rowIdx ∨ r = currentPosition.rowIdx + 1) →
      canEdit (getColumn columns i) (rowGetter r) enableCellSelect = false)
    (fuel : Nat) :
    getNextOrPrevEditableCell fuel host canEdit cellNavigationMode direction columns rowsCount
      currentPosition enableCellSelect rowGetter none = none := by
  unfold getNextOrPrevEditableCell
  exact searchLoop_none_of_invariant _
    (fun c => 0 ≤ c.idx ∧
      (c.rowIdx = currentPosition.rowIdx ∨ c.rowIdx = currentPosition.rowIdx + 1))
    (fun c hc => searchBody_forward_stays host canEdit direction columns rowsCount
      currentPosition.rowIdx enableCellSelect rowGetter c hdir hrows hedit hc)
    fuel _ ⟨hidx, Or.inl rfl⟩

/-! ## Navigation policy: properties -/

/-- C1: in CHANGE_ROW mode a candidate one past the last column moves to column 0
of the next row with the flag set, unless it is on the last row, where it is
returned unchanged with the flag clear; a candidate at column -1 moves to the
last column of the previous row with the flag set, unless it is on row 0, where
it is returned unchanged with the flag clear. -/
theorem getNextSelectedCellPosition_change_row (columns : List Column) (rowsCount : Int)
    (nextPosition : Position) :
    (nextPosition.idx = (columns.length : Int) → nextPosition.rowIdx ≠ rowsCount - 1 →
      getNextSelectedCellPosition CellNavigationMode.CHANGE_ROW columns rowsCount nextPosition
        = { idx := 0, rowIdx := nextPosition.rowIdx + 1, changeRowOrColumn := true }) ∧
    (nextPosition.idx = (columns.length : Int) → nextPosition.rowIdx = rowsCount - 1 →
      getNextSelectedCellPosition CellNavigationMode.CHANGE_ROW columns rowsCount nextPosition
        = { idx := nextPosition.idx, rowIdx := nextPosition.rowIdx,
            changeRowOrColumn := false }) ∧
    (nextPosition.idx = -1 → nextPosition.rowIdx ≠ 0 →
      getNextSelectedCellPosition CellNavigationMode.CHANGE_ROW columns rowsCount nextPosition
        = { idx := (columns.length : Int) - 1, rowIdx := nextPosition.rowIdx - 1,
            changeRowOrColumn := true }) ∧
    (nextPosition.idx = -1 → nextPosition.rowIdx = 0 →
      getNextSelectedCellPosition CellNavigationMode.CHANGE_ROW columns rowsCount nextPosition
        = { idx := nextPosition.idx, rowIdx := nextPosition.rowIdx,
            changeRowOrColumn := false }) := by
  have hlen : (0 : Int) ≤ (columns.length : Int) := Int.ofNat_nonneg _
  refine ⟨?_, ?_, ?_, ?_⟩
  · intro h1 h2
    simp [getNextSelectedCellPosition, h1, h2]
  · intro h1 h2
    simp [getNextSelectedCellPosition, h1, h2]
  · intro h1 h2
    have h3 : ¬ ((-1 : Int) = (columns.length : Int)) := by omega
    simp [getNextSelectedCellPosition, h1, h2, h3]
  · intro h1 h2
    have h3 : ¬ ((-1 : Int) = (columns.length : Int)) := by omega
    simp [getNextSelectedCellPosition, h1, h2, h3]

/-- C1 at five columns and ten rows: the candidate (5, 2) moves to (0, 3) with the
flag set, and the candidate (5, 9) on the last row is returned unchanged. -/
theorem getNextSelectedCellPosition_change_row_witness :
    getNextSelectedCellPosition CellNavigationMode.CHANGE_ROW fiveColumns 10
        { idx := 5, rowIdx := 2 }
      = { idx := 0, rowIdx := 3, changeRowOrColumn := true } ∧
    getNextSelectedCellPosition CellNavigationMode.CHANGE_ROW fiveColumns 10
        { idx := 5, rowIdx := 9 }
      = { idx := 5, rowIdx := 9, changeRowOrColumn := false } ∧
    getNextSelectedCellPosition CellNavigationMode.CHANGE_ROW fiveColumns 10
        { idx := -1, rowIdx := 2 }
      = { idx := 4, rowIdx := 1, changeRowOrColumn := true } ∧
    getNextSelectedCellPosition CellNavigationMode.CHANGE_ROW fiveColumns 10
        { idx := -1, rowIdx := 0 }
      = { idx := -1, rowIdx := 0, changeRowOrColumn := false } :=
  ⟨(getNextSelectedCellPosition_change_row fiveColumns 10 { idx := 5, rowIdx := 2 }).1
      (by decide) (by decide),
   (getNextSelectedCellPosition_change_row fiveColumns 10 { idx := 5, rowIdx := 9 }).2.1
      (by decide) (by decide),
   (getNextSelectedCellPosition_change_row fiveColumns 10 { idx := -1, rowIdx := 2 }).2.2.1
      (by decide) (by decide),
   (getNextSelectedCellPosition_change_row fiveColumns 10 { idx := -1, rowIdx := 0 }).2.2.2
      (by decide) (by decide)⟩

/-- C2: in LOOP_OVER_ROW mode a candidate one past the last column moves to column
0 of the same row with the flag set, a candidate at column -1 moves to the last
column of the same row with the flag set, and no candidate has its row index
changed. -/
theorem getNextSelectedCellPosition_loop_over_row (columns : List Column) (rowsCount : Int)
    (nextPosition : Position) :
    (nextPosition.idx = (columns.length : Int) →
      getNextSelectedCellPosition CellNavigationMode.LOOP_OVER_ROW columns rowsCount nextPosition
        = { idx := 0, rowIdx := nextPosition.rowIdx, changeRowOrColumn := true }) ∧
    (nextPosition.idx = -1 →
      getNextSelectedCellPosition CellNavigationMode.LOOP_OVER_ROW columns rowsCount nextPosition
        = { idx := (columns.length : Int) - 1, rowIdx := nextPosition.rowIdx,
            changeRowOrColumn := true }) ∧
    (getNextSelectedCellPosition CellNavigationMode.LOOP_OVER_ROW columns rowsCount
        nextPosition).rowIdx = nextPosition.rowIdx := by
  have hlen : (0 : Int) ≤ (columns.length : Int) := Int.ofNat_nonneg _
  refine ⟨?_, ?_, ?_⟩
  · intro h1
    simp [getNextSelectedCellPosition, h1]
  · intro h1
    have h3 : ¬ ((-1 : Int) = (columns.length : Int)) := by omega
    simp [getNextSelectedCellPosition, h1, h3]
  · simp only [getNextSelectedCellPosition]
    split_ifs <;> simp_all

/-- C2 at five columns: the candidate (-1, 4) moves to (4, 4) with the flag set, and
the candidate (5, 4) moves to (0, 4) with the flag set. -/
theorem getNextSelectedCellPosition_loop_over_row_witness :
    getNextSelectedCellPosition CellNavigationMode.LOOP_OVER_ROW fiveColumns 10
        { idx := -1, rowIdx := 4 }
      = { idx := 4, rowIdx := 4, changeRowOrColumn := true } ∧
    getNextSelectedCellPosition CellNavigationMode.LOOP_OVER_ROW fiveColumns 10
        { idx := 5, rowIdx := 4 }
      = { idx := 0, rowIdx := 4, changeRowOrColumn := true } :=
  ⟨(getNextSelectedCellPosition_loop_over_row fiveColumns 10 { idx := -1, rowIdx := 4 }).2.1
      (by decide),
   (getNextSelectedCellPosition_loop_over_row fiveColumns 10 { idx := 5, rowIdx := 4 }).1
      (by decide)⟩

/-- C3: the candidate is returned with the same idx and rowIdx and with the flag
clear whenever the mode is NONE, whatever the candidate, and in every mode
whenever the candidate idx is neither -1 nor the number of columns. -/
theorem getNextSelectedCellPosition_pass_through (columns : List Column) (rowsCount : Int)
    (nextPosition : Position) :
    getNextSelectedCellPosition CellNavigationMode.NONE columns rowsCount nextPosition
      = { idx := nextPosition.idx, rowIdx := nextPosition.rowIdx,
          changeRowOrColumn := false } ∧
    ∀ cellNavigationMode : CellNavigationMode,
      nextPosition.idx ≠ -1 → nextPosition.idx ≠ (columns.length : Int) →
      getNextSelectedCellPosition cellNavigationMode columns rowsCount nextPosition
        = { idx := nextPosition.idx, rowIdx := nextPosition.rowIdx,
            changeRowOrColumn := false } := by
  refine ⟨?_, ?_⟩
  · simp [getNextSelectedCellPosition]
  · intro cellNavigationMode h1 h2
    simp [getNextSelectedCellPosition, h1, h2]

/-- C3 at five columns and ten rows: mode NONE leaves the sentinel candidates (-1, 3)
and (5, 3) alone, and CHANGE_ROW and LOOP_OVER_ROW leave the candidate (2, 3) alone. -/
theorem getNextSelectedCellPosition_pass_through_witness :
    getNextSelectedCellPosition CellNavigationMode.NONE fiveColumns 10
        { idx := -1, rowIdx := 3 }
      = { idx := -1, rowIdx := 3, changeRowOrColumn := false } ∧
    getNextSelectedCellPosition CellNavigationMode.NONE fiveColumns 10
        { idx := 5, rowIdx := 3 }
      = { idx := 5, rowIdx := 3, changeRowOrColumn := false } ∧
    getNextSelectedCellPosition CellNavigationMode.CHANGE_ROW fiveColumns 10
        { idx := 2, rowIdx := 3 }
      = { idx := 2, rowIdx := 3, changeRowOrColumn := false } ∧
    getNextSelectedCellPosition CellNavigationMode.LOOP_OVER_ROW fiveColumns 10
        { idx := 2, rowIdx := 3 }
      = { idx := 2, rowIdx := 3, changeRowOrColumn := false } :=
  ⟨(getNextSelectedCellPosition_pass_through fiveColumns 10 { idx := -1, rowIdx := 3 }).1,
   (getNextSelectedCellPosition_pass_through fiveColumns 10 { idx := 5, rowIdx := 3 }).1,
   (getNextSelectedCellPosition_pass_through fiveColumns 10 { idx := 2, rowIdx := 3 }).2
      CellNavigationMode.CHANGE_ROW (by decide) (by decide),
   (getNextSelectedCellPosition_pass_through fiveColumns 10 { idx := 2, rowIdx := 3 }).2
      CellNavigationMode.LOOP_OVER_ROW (by decide) (by decide)⟩

/-! ## Grid exit: properties -/

/-- C4: in mode NONE or CHANGE_ROW, with shift held the grid can be left exactly
from column 0 of row 0, and without shift exactly from the last column of the
last row. -/
theorem canExitGrid_none_or_change_row (cellNavigationMode : CellNavigationMode)
    (columns : List Column) (rowsCount : Int) (selectedPosition : Position)
    (hmode : cellNavigationMode = CellNavigationMode.NONE ∨
      cellNavigationMode = CellNavigationMode.CHANGE_ROW) :
    (canExitGrid { shiftKey := true } cellNavigationMode columns rowsCount selectedPosition = true
      ↔ selectedPosition.idx = 0 ∧ selectedPosition.rowIdx = 0) ∧
    (canExitGrid { shiftKey := false } cellNavigationMode columns rowsCount selectedPosition = true
      ↔ selectedPosition.idx = (columns.length : Int) - 1 ∧
        selectedPosition.rowIdx = rowsCount - 1) := by
  simp [canExitGrid, hmode]

/-- C4 in mode NONE at five columns and ten rows, position (4, 9): the grid can be
left without shift and cannot be left with shift. -/
theorem canExitGrid_none_or_change_row_witness :
    canExitGrid { shiftKey := false } CellNavigationMode.NONE fiveColumns 10
        { idx := 4, rowIdx := 9 } = true ∧
    ¬ canExitGrid { shiftKey := true } CellNavigationMode.NONE fiveColumns 10
        { idx := 4, rowIdx := 9 } = true :=
  ⟨(canExitGrid_none_or_change_row CellNavigationMode.NONE fiveColumns 10
      { idx := 4, rowIdx := 9 } (Or.inl rfl)).2.mpr (by decide),
   fun h => absurd ((canExitGrid_none_or_change_row CellNavigationMode.NONE fiveColumns 10
      { idx := 4, rowIdx := 9 } (Or.inl rfl)).1.mp h) (by decide)⟩

/-- C5: in mode LOOP_OVER_ROW the grid can never be left, whatever the position,
the shift state, the columns and the row count. -/
theorem canExitGrid_loop_over_row (e : KeyEvent) (columns : List Column) (rowsCount : Int)
    (selectedPosition : Position) :
    canExitGrid e CellNavigationMode.LOOP_OVER_ROW columns rowsCount selectedPosition
      = false := by
  simp [canExitGrid]

/-! ## Selection geometry: properties -/

/-- C9: for a position with a negative idx the rectangle is width 0, left 0, top 0,
height rowHeight, zIndex 1, for every list of columns (the empty one included),
every rowHeight and every scrollLeft; no column enters the result. -/
theorem getSelectedDimensions_negative_idx (z : ZIndexes) (selectedPosition : Position)
    (columns : List Column) (rowHeight scrollLeft : Int) (hidx : selectedPosition.idx < 0) :
    getSelectedDimensions z selectedPosition columns rowHeight scrollLeft
      = .ok { width := 0, left := 0, top := 0, height := rowHeight, zIndex := 1 } := by
  have h : ¬ (selectedPosition.idx ≥ 0) := by omega
  simp [getSelectedDimensions, h]

/-- C9 at idx -1 with no columns at all, row height 35 and scroll offset 20. -/
theorem getSelectedDimensions_negative_idx_witness :
    getSelectedDimensions sampleZIndexes { idx := -1, rowIdx := 7 } [] 35 20
      = .ok { width := 0, left := 0, top := 0, height := 35, zIndex := 1 } :=
  getSelectedDimensions_negative_idx sampleZIndexes { idx := -1, rowIdx := 7 } [] 35 20
    (by decide)

/-- C10: for a position whose idx is a valid column index the call returns a
rectangle with the width of that column, top = rowIdx * rowHeight and
height = rowHeight; for a frozen column left is the column's left plus
scrollLeft and zIndex is FROZEN_CELL_MASK, otherwise left is the column's left
and zIndex is CELL_MASK. -/
theorem getSelectedDimensions_in_range (z : ZIndexes) (selectedPosition : Position)
    (columns : List Column) (rowHeight scrollLeft : Int)
    (hlo : 0 ≤ selectedPosition.idx) (hhi : selectedPosition.idx < (columns.length : Int)) :
    ∃ column, columns[selectedPosition.idx.toNat]? = some column ∧
      getSelectedDimensions z selectedPosition columns rowHeight scrollLeft
        = .ok { width := column.width,
                left := if isFrozen column = true then column.left + scrollLeft
                        else column.left,
                top := selectedPosition.rowIdx * rowHeight,
                height := rowHeight,
                zIndex := if isFrozen column = true then z.FROZEN_CELL_MASK
                          else z.CELL_MASK } := by
  have hlt : selectedPosition.idx.toNat < columns.length := by omega
  have hget : columns[selectedPosition.idx.toNat]? = some columns[selectedPosition.idx.toNat] :=
    List.getElem?_eq_getElem hlt
  have hneg : ¬ (selectedPosition.idx < 0) := by omega
  refine ⟨columns[selectedPosition.idx.toNat], hget, ?_⟩
  simp only [getSelectedDimensions, getColumn, hlo, ge_iff_le, if_true, hneg, if_false, hget,
    getRowTop]

/-- C10 at five columns, row height 35 and scroll offset 20: the frozen column 0 at
row 2 gives left 0 + 20 and the frozen layer, and the column 1, which is not
frozen, gives left 100 and the cell layer. -/
theorem getSelectedDimensions_in_range_witness :
    (∃ column, fiveColumns[(0 : Int).toNat]? = some column ∧
      getSelectedDimensions sampleZIndexes { idx := 0, rowIdx := 2 } fiveColumns 35 20
        = .ok { width := column.width,
                left := if isFrozen column = true then column.left + 20 else column.left,
                top := 2 * 35,
                height := 35,
                zIndex := if isFrozen column = true then sampleZIndexes.FROZEN_CELL_MASK
                          else sampleZIndexes.CELL_MASK }) ∧
    getSelectedDimensions sampleZIndexes { idx := 0, rowIdx := 2 } fiveColumns 35 20
      = .ok { width := 100, left := 20, top := 70, height := 35, zIndex := 3 } ∧
    getSelectedDimensions sampleZIndexes { idx := 1, rowIdx := 2 } fiveColumns 35 20
      = .ok { width := 100, left := 100, top := 70, height := 35, zIndex := 1 } :=
  ⟨getSelectedDimensions_in_range sampleZIndexes { idx := 0, rowIdx := 2 } fiveColumns 35 20
    (by decide) (by decide), rfl, rfl⟩

/-! ## Editable-cell search: properties -/

/-- C6: the code departs from the claim. In a grid where no cell can be edited, a
forward search with no override that starts at a non-negative column of a row
at least two rows above the last one never returns: after the start row it
scans the next row, and at the end of that row the row wrap, which reads the
start row index, sends it to column 0 of the same next row again. No budget of
passes is enough, so no bound of columns.length * rowsCount cells holds. -/
theorem getNextOrPrevEditableCell_no_editable_cell_never_returns {Row : Type} (host : Host)
    (canEdit : Option Column → Row → Bool → Bool)
    (cellNavigationMode : CellNavigationMode) (direction : Option Direction)
    (columns : List Column) (rowsCount : Int) (currentPosition : Position)
    (enableCellSelect : Bool) (rowGetter : Int → Row) (fuel : Nat)
    (hdir : direction = none ∨ direction = some Direction.NEXT_CELL)
    (hidx : 0 ≤ currentPosition.idx)
    (hrows : currentPosition.rowIdx + 2 < rowsCount)
    (hedit : ∀ i r, canEdit (getColumn columns i) (rowGetter r) enableCellSelect = false) :
    getNextOrPrevEditableCell fuel host canEdit cellNavigationMode direction columns rowsCount
      currentPosition enableCellSelect rowGetter none = none :=
  search_forward_never_returns host canEdit cellNavigationMode direction columns rowsCount
    currentPosition enableCellSelect rowGetter hdir hidx hrows (fun i r _ => hedit i r) fuel

/-- C6 at one column and three rows, none of whose cells can be edited, start
position (0, 0), forward: a budget of 3 passes (the number of cells) is not
enough, and neither is a budget of 1000 passes. -/
theorem getNextOrPrevEditableCell_no_editable_cell_never_returns_witness :
    (∀ i r, neverEditable (getColumn oneColumn i) (rowByIndex r) true = false) ∧
    getNextOrPrevEditableCell 3 browserHost neverEditable CellNavigationMode.CHANGE_ROW none
      oneColumn 3 { idx := 0, rowIdx := 0 } true rowByIndex none = none ∧
    getNextOrPrevEditableCell 1000 browserHost neverEditable CellNavigationMode.CHANGE_ROW none
      oneColumn 3 { idx := 0, rowIdx := 0 } true rowByIndex none = none :=
  ⟨fun _ _ => rfl,
   getNextOrPrevEditableCell_no_editable_cell_never_returns browserHost neverEditable
     CellNavigationMode.CHANGE_ROW none oneColumn 3 { idx := 0, rowIdx := 0 } true rowByIndex 3
     (Or.inl rfl) (by decide) (by decide) (fun _ _ => rfl),
   getNextOrPrevEditableCell_no_editable_cell_never_returns browserHost neverEditable
     CellNavigationMode.CHANGE_ROW none oneColumn 3 { idx := 0, rowIdx := 0 } true rowByIndex 1000
     (Or.inl rfl) (by decide) (by decide) (fun _ _ => rfl)⟩

/-- C7: the code departs from the claim. A forward search with no override that
starts at a non-negative column of a row at least two rows above the last one
never returns when no cell of the start row and of the row after it can be
edited, whatever the rows further down hold: an editable cell two or more rows
below the start is never reached. -/
theorem getNextOrPrevEditableCell_forward_misses_later_rows {Row : Type} (host : Host)
    (canEdit : Option Column → Row → Bool → Bool)
    (cellNavigationMode : CellNavigationMode) (direction : Option Direction)
    (columns : List Column) (rowsCount : Int) (currentPosition : Position)
    (enableCellSelect : Bool) (rowGetter : Int → Row) (fuel : Nat)
    (hdir : direction = none ∨ direction = some Direction.NEXT_CELL)
    (hidx : 0 ≤ currentPosition.idx)
    (hrows : currentPosition.rowIdx + 2 < rowsCount)
    (hedit : ∀ i r, (r = currentPosition.rowIdx ∨ r = currentPosition.rowIdx + 1) →
      canEdit (getColumn columns i) (rowGetter r) enableCellSelect = false) :
    getNextOrPrevEditableCell fuel host canEdit cellNavigationMode direction columns rowsCount
      currentPosition enableCellSelect rowGetter none = none :=
  search_forward_never_returns host canEdit cellNavigationMode direction columns rowsCount
    currentPosition enableCellSelect rowGetter hdir hidx hrows hedit fuel

/-- C7 at one column and three rows where exactly the cell (0, 2) can be edited,
start position (0, 0), forward: the cell (0, 2) comes after the start in
row-major order and is editable, and the search has not returned it after 3
passes nor after 1000. -/
theorem getNextOrPrevEditableCell_forward_misses_later_rows_witness :
    editableInRowTwo (getColumn oneColumn 0) (rowByIndex 2) true = true ∧
    getNextOrPrevEditableCell 3 browserHost editableInRowTwo CellNavigationMode.CHANGE_ROW none
      oneColumn 3 { idx := 0, rowIdx := 0 } true rowByIndex none = none ∧
    getNextOrPrevEditableCell 1000 browserHost editableInRowTwo CellNavigationMode.CHANGE_ROW
      none oneColumn 3 { idx := 0, rowIdx := 0 } true rowByIndex none = none :=
  ⟨rfl,
   getNextOrPrevEditableCell_forward_misses_later_rows browserHost editableInRowTwo
     CellNavigationMode.CHANGE_ROW none oneColumn 3 { idx := 0, rowIdx := 0 } true rowByIndex 3
     (Or.inl rfl) (by decide) (by decide)
     (by
       intro i r hr
       have h2 : (r == 2) = false := by
         rcases hr with h | h <;> subst h <;> decide
       simp [editableInRowTwo, rowByIndex, h2]),
   getNextOrPrevEditableCell_forward_misses_later_rows browserHost editableInRowTwo
     CellNavigationMode.CHANGE_ROW none oneColumn 3 { idx := 0, rowIdx := 0 } true rowByIndex 1000
     (Or.inl rfl) (by decide) (by decide)
     (by
       intro i r hr
       have h2 : (r == 2) = false := by
         rcases hr with h | h <;> subst h <;> decide
       simp [editableInRowTwo, rowByIndex, h2])⟩

/-- C8: the code departs from the claim. When an override function is supplied
and the global scope binds no `selectedPosition`, the first pass of the search
throws a ReferenceError on `selectedPosition` before the override is called,
for every grid, start position, direction and override; the sibling
`isSelectedCellEditable` does call the override with the row, the column and
the idx and rowIdx of the cell it examines. -/
theorem getNextOrPrevEditableCell_override_throws {Row : Type} (fuel : Nat) (stop : Bool)
    (canEdit : Option Column → Row → Bool → Bool)
    (cellNavigationMode : CellNavigationMode) (direction : Option Direction)
    (columns : List Column) (rowsCount : Int) (currentPosition : Position)
    (enableCellSelect : Bool) (rowGetter : Int → Row) (check : CheckArgs Row → Bool) :
    getNextOrPrevEditableCell (fuel + 1) { stop := stop, selectedPosition := none } canEdit
        cellNavigationMode direction columns rowsCount currentPosition enableCellSelect
        rowGetter (some check)
      = some (SearchResult.threw (Fault.referenceError "selectedPosition")) ∧
    isSelectedCellEditable canEdit enableCellSelect currentPosition columns rowGetter
        (some check)
      = (canEdit (getColumn columns currentPosition.idx) (rowGetter currentPosition.rowIdx)
          enableCellSelect &&
        check { row := rowGetter currentPosition.rowIdx,
                column := getColumn columns currentPosition.idx,
                idx := currentPosition.idx, rowIdx := currentPosition.rowIdx }) := by
  refine ⟨?_, rfl⟩
  unfold getNextOrPrevEditableCell
  apply searchLoop_done
  simp only [searchBody, searchIsCellEditable]

/-! ## Range utilities and the exit predicate against the navigation policy -/

/-- C14: `selectedRangeIsSingleCell` is true exactly when the two corners have the
same idx and the same rowIdx. -/
theorem selectedRangeIsSingleCell_iff (selectedRange : SelectedRange) :
    selectedRangeIsSingleCell selectedRange = true ↔
      selectedRange.topLeft.idx = selectedRange.bottomRight.idx ∧
      selectedRange.topLeft.rowIdx = selectedRange.bottomRight.rowIdx := by
  simp [selectedRangeIsSingleCell]

/-- C14 at the corners (2, 3) and (2, 3), which give true, and at the corners
(2, 3) and (3, 3), which give false. -/
theorem selectedRangeIsSingleCell_iff_witness :
    selectedRangeIsSingleCell
        { topLeft := { idx := 2, rowIdx := 3 }, bottomRight := { idx := 2, rowIdx := 3 } }
      = true ∧
    selectedRangeIsSingleCell
        { topLeft := { idx := 2, rowIdx := 3 }, bottomRight := { idx := 3, rowIdx := 3 } }
      = false :=
  ⟨(selectedRangeIsSingleCell_iff
      { topLeft := { idx := 2, rowIdx := 3 }, bottomRight := { idx := 2, rowIdx := 3 } }).mpr
      ⟨rfl, rfl⟩,
   by decide⟩

/-- C17: with at least one column and one row, for a candidate with
0 ≤ rowIdx < rowsCount (whatever its idx, so in particular for
-1 ≤ idx ≤ columns.length), in every mode: the resulting rowIdx is a row of
the grid and is at most one away from the candidate's; when the flag is set
the resulting idx is a column of the grid; when the flag is clear the result
is the candidate. -/
theorem getNextSelectedCellPosition_stays_in_grid (cellNavigationMode : CellNavigationMode)
    (columns : List Column) (rowsCount : Int) (nextPosition : Position)
    (hcols : 1 ≤ columns.length) (hrowsCount : 1 ≤ rowsCount)
    (hrlo : 0 ≤ nextPosition.rowIdx) (hrhi : nextPosition.rowIdx < rowsCount) :
    (0 ≤ (getNextSelectedCellPosition cellNavigationMode columns rowsCount nextPosition).rowIdx ∧
      (getNextSelectedCellPosition cellNavigationMode columns rowsCount nextPosition).rowIdx
        < rowsCount) ∧
    ((getNextSelectedCellPosition cellNavigationMode columns rowsCount nextPosition).rowIdx
        - nextPosition.rowIdx ≤ 1 ∧
      nextPosition.rowIdx
        - (getNextSelectedCellPosition cellNavigationMode columns rowsCount nextPosition).rowIdx
        ≤ 1) ∧
    ((getNextSelectedCellPosition cellNavigationMode columns rowsCount
        nextPosition).changeRowOrColumn = true →
      0 ≤ (getNextSelectedCellPosition cellNavigationMode columns rowsCount nextPosition).idx ∧
      (getNextSelectedCellPosition cellNavigationMode columns rowsCount nextPosition).idx
        < (columns.length : Int)) ∧
    ((getNextSelectedCellPosition cellNavigationMode columns rowsCount
        nextPosition).changeRowOrColumn = false →
      (getNextSelectedCellPosition cellNavigationMode columns rowsCount nextPosition).idx
        = nextPosition.idx ∧
      (getNextSelectedCellPosition cellNavigationMode columns rowsCount nextPosition).rowIdx
        = nextPosition.rowIdx) := by
  have hlen : (1 : Int) ≤ (columns.length : Int) := by exact_mod_cast hcols
  simp only [getNextSelectedCellPosition]
  split_ifs <;> simp_all <;> omega

/-- C17 at five columns and ten rows in CHANGE_ROW mode, candidate (5, 2): the
result (0, 3) with the flag set lies in the grid, one row below the candidate. -/
theorem getNextSelectedCellPosition_stays_in_grid_witness :
    getNextSelectedCellPosition CellNavigationMode.CHANGE_ROW fiveColumns 10
        { idx := 5, rowIdx := 2 }
      = { idx := 0, rowIdx := 3, changeRowOrColumn := true } ∧
    (0 ≤ (getNextSelectedCellPosition CellNavigationMode.CHANGE_ROW fiveColumns 10
        { idx := 5, rowIdx := 2 }).rowIdx ∧
      (getNextSelectedCellPosition CellNavigationMode.CHANGE_ROW fiveColumns 10
        { idx := 5, rowIdx := 2 }).rowIdx < 10) :=
  ⟨by decide,
   (getNextSelectedCellPosition_stays_in_grid CellNavigationMode.CHANGE_ROW fiveColumns 10
      { idx := 5, rowIdx := 2 } (by decide) (by decide) (by decide) (by decide)).1⟩

/-- C18: in CHANGE_ROW mode, with at least one column and a position whose idx is
a column of the grid (whatever the row count and the rowIdx, so in particular
for every position inside a grid with at least one row), the grid can be left
without shift exactly when the policy leaves the forward candidate (idx + 1)
at idx = columns.length, and can be left with shift exactly when the policy
leaves the backward candidate (idx - 1) at idx = -1. -/
theorem canExitGrid_iff_no_wrap_target (columns : List Column) (rowsCount : Int)
    (selectedPosition : Position)
    (hcols : 1 ≤ columns.length)
    (hlo : 0 ≤ selectedPosition.idx) (hhi : selectedPosition.idx < (columns.length : Int)) :
    (canExitGrid { shiftKey := false } CellNavigationMode.CHANGE_ROW columns rowsCount
        selectedPosition = true ↔
      (getNextSelectedCellPosition CellNavigationMode.CHANGE_ROW columns rowsCount
        { idx := selectedPosition.idx + 1, rowIdx := selectedPosition.rowIdx }).idx
        = (columns.length : Int)) ∧
    (canExitGrid { shiftKey := true } CellNavigationMode.CHANGE_ROW columns rowsCount
        selectedPosition = true ↔
      (getNextSelectedCellPosition CellNavigationMode.CHANGE_ROW columns rowsCount
        { idx := selectedPosition.idx - 1, rowIdx := selectedPosition.rowIdx }).idx
        = -1) := by
  have hlen : (1 : Int) ≤ (columns.length : Int) := by exact_mod_cast hcols
  constructor
  · simp only [canExitGrid, getNextSelectedCellPosition]
    split_ifs <;> simp_all <;> omega
  · simp only [canExitGrid, getNextSelectedCellPosition]
    split_ifs <;> simp_all <;> first | omega | (rintro rfl; simp at hcols)

/-- C18 at five columns and ten rows: at the last cell (4, 9) the grid can be left
without shift and the forward candidate stays at idx 5; at the first cell
(0, 0) the grid can be left with shift and the backward candidate stays at
idx -1. -/
theorem canExitGrid_iff_no_wrap_target_witness :
    canExitGrid { shiftKey := false } CellNavigationMode.CHANGE_ROW fiveColumns 10
        { idx := 4, rowIdx := 9 } = true ∧
    canExitGrid { shiftKey := true } CellNavigationMode.CHANGE_ROW fiveColumns 10
        { idx := 0, rowIdx := 0 } = true :=
  ⟨(canExitGrid_iff_no_wrap_target fiveColumns 10 { idx := 4, rowIdx := 9 } (by decide)
      (by decide) (by decide)).1.mpr (by decide),
   (canExitGrid_iff_no_wrap_target fiveColumns 10 { idx := 0, rowIdx := 0 } (by decide)
      (by decide) (by decide)).2.mpr (by decide)⟩

/-! ## Range geometry: the column loop -/

/-- The column accessor at a natural index inside the list. -/
theorem getColumn_natCast (columns : List Column) (i : Nat) (h : i < columns.length) :
    getColumn columns (i : Int) = some columns[i] := by
  have hneg : ¬ ((i : Int) < 0) := by omega
  simp [getColumn, hneg, List.getElem?_eq_getElem h]

/-- The column accessor finds nothing in an empty list. -/
theorem getColumn_nil (idx : Int) : getColumn [] idx = none := by
  simp [getColumn]

/-- The column loop over `n` indices from `i`, all inside the list, adds the
widths of these columns to the running width and ors their frozen flags into
the running flag. -/
theorem getColumnRangeLoop_eq (columns : List Column) :
    ∀ (n i : Nat) (totalWidth : Int) (anyColFrozen : Bool), i + n ≤ columns.length →
      getColumnRangeLoop columns n (i : Int) totalWidth anyColFrozen
        = .ok (totalWidth + (((columns.drop i).take n).map (fun c => c.width)).sum,
               anyColFrozen || ((columns.drop i).take n).any isFrozen) := by
  intro n
  induction n with
  | zero =>
    intro i totalWidth anyColFrozen _
    simp [getColumnRangeLoop]
  | succ n ih =>
    intro i totalWidth anyColFrozen h
    have hi : i < columns.length := by omega
    have hcast : ((i : Int) + 1) = ((i + 1 : Nat) : Int) := by push_cast; rfl
    rw [getColumnRangeLoop, getColumn_natCast columns i hi]
    simp only
    rw [hcast, ih (i + 1) _ _ (by omega), List.drop_eq_getElem_cons hi]
    simp only [List.take_succ_cons, List.map_cons, List.sum_cons, List.any_cons, add_assoc,
      Bool.or_assoc]

/-! ## Editable-cell search: one pass and many -/

/-- The body of the search loop in terms of the cell it examines. -/
theorem searchBody_eq {Row : Type} (host : Host) (canEdit : Option Column → Row → Bool → Bool)
    (direction : Option Direction) (columns : List Column) (rowsCount rowIdx : Int)
    (enableCellSelect : Bool) (rowGetter : Int → Row)
    (onCheckCellIsEditable : Option (CheckArgs Row → Bool)) (c : Cell) :
    searchBody host canEdit direction columns rowsCount rowIdx enableCellSelect rowGetter
        onCheckCellIsEditable c
      = match searchIsCellEditable host onCheckCellIsEditable
            (rowGetter (examinedCell columns rowsCount rowIdx c).rowIdx)
            (getColumn columns (examinedCell columns rowsCount rowIdx c).idx) with
        | .error fault => .done (.threw fault)
        | .ok isCellEditable =>
          if (canEdit (getColumn columns (examinedCell columns rowsCount rowIdx c).idx)
              (rowGetter (examinedCell columns rowsCount rowIdx c).rowIdx) enableCellSelect
              && isCellEditable) = true then
            .done (.found (examinedCell columns rowsCount rowIdx c))
          else if direction = none ∨ direction = some Direction.NEXT_CELL then
            if (examinedCell columns rowsCount rowIdx c).rowIdx = rowsCount - 1 ∧
                (examinedCell columns rowsCount rowIdx c).idx + 1 ≥ (columns.length : Int) then
              .done (searchStop host)
            else
              .next { idx := (examinedCell columns rowsCount rowIdx c).idx + 1,
                      rowIdx := (examinedCell columns rowsCount rowIdx c).rowIdx,
                      changeRowOrColumn :=
                        (examinedCell columns rowsCount rowIdx c).changeRowOrColumn }
          else
            if (examinedCell columns rowsCount rowIdx c).rowIdx ≤ 0 ∧
                (examinedCell columns rowsCount rowIdx c).idx - 1 ≤ 0 then
              .done (searchStop host)
            else
              .next { idx := (examinedCell columns rowsCount rowIdx c).idx - 1,
                      rowIdx := (examinedCell columns rowsCount rowIdx c).rowIdx,
                      changeRowOrColumn :=
                        (examinedCell columns rowsCount rowIdx c).changeRowOrColumn } := by
  have he : examinedCell columns rowsCount rowIdx c
      = (if (decide (c.idx = (columns.length : Int))) = true then
          if (!decide (rowIdx = rowsCount - 1)) = true then
            { idx := 0, rowIdx := rowIdx + 1, changeRowOrColumn := true }
          else c
        else if (decide (c.idx = -1)) = true then
          if (!decide (rowIdx = 0)) = true then
            { rowIdx := rowIdx - 1, idx := (columns.length : Int) - 1, changeRowOrColumn := true }
          else c
        else c) := by
    simp only [examinedCell]
    split_ifs <;> simp_all
  rw [he]
  rfl

/-! ## Range geometry: properties -/

/-- C11: for a range whose column span lies inside the grid
(0 ≤ topLeft.idx ≤ bottomRight.idx < columns.length; the order of the row
indices is not needed), the rectangle has the summed width of the columns of
the span, the left offset of the column at topLeft.idx,
top = topLeft.rowIdx * rowHeight,
height = (bottomRight.rowIdx - topLeft.rowIdx + 1) * rowHeight, and the
frozen layer exactly when some column of the span is frozen. The span is the
list of the columns at the indices topLeft.idx .. bottomRight.idx. -/
theorem getSelectedRangeDimensions_in_range (z : ZIndexes) (selectedRange : SelectedRange)
    (columns : List Column) (rowHeight : Int)
    (hlo : 0 ≤ selectedRange.topLeft.idx)
    (hle : selectedRange.topLeft.idx ≤ selectedRange.bottomRight.idx)
    (hhi : selectedRange.bottomRight.idx < (columns.length : Int)) :
    ∃ (span : List Column) (first : Column),
      span.length
        = (selectedRange.bottomRight.idx - selectedRange.topLeft.idx + 1).toNat ∧
      (∀ k, k < span.length → span[k]? = columns[selectedRange.topLeft.idx.toNat + k]?) ∧
      columns[selectedRange.topLeft.idx.toNat]? = some first ∧
      getSelectedRangeDimensions z selectedRange columns rowHeight
        = .ok { width := (span.map (fun c => c.width)).sum,
                left := first.left,
                top := selectedRange.topLeft.rowIdx * rowHeight,
                height := (selectedRange.bottomRight.rowIdx - selectedRange.topLeft.rowIdx + 1)
                  * rowHeight,
                zIndex := if span.any isFrozen = true then z.FROZEN_CELL_MASK
                          else z.CELL_MASK } := by
  have hbound : selectedRange.topLeft.idx.toNat
      + (selectedRange.bottomRight.idx - selectedRange.topLeft.idx + 1).toNat
      ≤ columns.length := by omega
  have hfirstlt : selectedRange.topLeft.idx.toNat < columns.length := by omega
  have hloop := getColumnRangeLoop_eq columns
    (selectedRange.bottomRight.idx - selectedRange.topLeft.idx + 1).toNat
    selectedRange.topLeft.idx.toNat 0 false hbound
  have hfirst := getColumn_natCast columns selectedRange.topLeft.idx.toNat hfirstlt
  rw [Int.toNat_of_nonneg hlo] at hloop hfirst
  have hneg : ¬ (selectedRange.topLeft.idx < 0) := by omega
  refine ⟨(columns.drop selectedRange.topLeft.idx.toNat).take
      (selectedRange.bottomRight.idx - selectedRange.topLeft.idx + 1).toNat,
    columns[selectedRange.topLeft.idx.toNat], ?_, ?_, List.getElem?_eq_getElem hfirstlt, ?_⟩
  · simp only [List.length_take, List.length_drop]
    omega
  · intro k hk
    simp only [List.length_take, List.length_drop] at hk
    rw [List.getElem?_take_of_lt (by omega), List.getElem?_drop]
  · simp only [getSelectedRangeDimensions, getColumnRangeProperties, hloop, hfirst, hneg,
      if_false, getRowTop, zero_add, Bool.false_or]

/-- C11 at five columns and row height 35, range from (0, 1) to (2, 3): three
columns of width 100, the first one frozen, give width 300, left 0, top 35,
height 105 and the frozen layer. -/
theorem getSelectedRangeDimensions_in_range_witness :
    (∃ (span : List Column) (first : Column),
      span.length = ((2 : Int) - 0 + 1).toNat ∧
      (∀ k, k < span.length → span[k]? = fiveColumns[(0 : Int).toNat + k]?) ∧
      fiveColumns[(0 : Int).toNat]? = some first ∧
      getSelectedRangeDimensions sampleZIndexes
          { topLeft := { idx := 0, rowIdx := 1 }, bottomRight := { idx := 2, rowIdx := 3 } }
          fiveColumns 35
        = .ok { width := (span.map (fun c => c.width)).sum,
                left := first.left,
                top := 1 * 35,
                height := ((3 : Int) - 1 + 1) * 35,
                zIndex := if span.any isFrozen = true then sampleZIndexes.FROZEN_CELL_MASK
                          else sampleZIndexes.CELL_MASK }) ∧
    getSelectedRangeDimensions sampleZIndexes
        { topLeft := { idx := 0, rowIdx := 1 }, bottomRight := { idx := 2, rowIdx := 3 } }
        fiveColumns 35
      = .ok { width := 300, left := 0, top := 35, height := 105, zIndex := 3 } :=
  ⟨getSelectedRangeDimensions_in_range sampleZIndexes
      { topLeft := { idx := 0, rowIdx := 1 }, bottomRight := { idx := 2, rowIdx := 3 } }
      fiveColumns 35 (by decide) (by decide) (by decide),
   rfl⟩

/-- C12: for a position whose idx is a column of the grid, the rectangle of the
single-cell range at that position and the rectangle of the selected cell
have the same width, top, height and zIndex for every scrollLeft; the left
values are equal when the column is not frozen or scrollLeft is 0, and for a
frozen column the single-cell left is the range left plus scrollLeft. -/
theorem getSelectedRangeDimensions_single_cell (z : ZIndexes) (selectedPosition : Position)
    (columns : List Column) (rowHeight scrollLeft : Int)
    (hlo : 0 ≤ selectedPosition.idx) (hhi : selectedPosition.idx < (columns.length : Int)) :
    ∃ (column : Column) (cell range : Dimensions),
      columns[selectedPosition.idx.toNat]? = some column ∧
      getSelectedDimensions z selectedPosition columns rowHeight scrollLeft = .ok cell ∧
      getSelectedRangeDimensions z
          { topLeft := selectedPosition, bottomRight := selectedPosition } columns rowHeight
        = .ok range ∧
      range.width = cell.width ∧ range.top = cell.top ∧ range.height = cell.height ∧
      range.zIndex = cell.zIndex ∧
      (isFrozen column = false ∨ scrollLeft = 0 → cell.left = range.left) ∧
      (isFrozen column = true → cell.left = range.left + scrollLeft) := by
  have hlt : selectedPosition.idx.toNat < columns.length := by omega
  have hcol := getColumn_natCast columns selectedPosition.idx.toNat hlt
  rw [Int.toNat_of_nonneg hlo] at hcol
  have hneg : ¬ (selectedPosition.idx < 0) := by omega
  have hone : (selectedPosition.idx - selectedPosition.idx + 1).toNat = 1 := by simp
  have hcell : getSelectedDimensions z selectedPosition columns rowHeight scrollLeft
      = .ok { width := columns[selectedPosition.idx.toNat].width,
              left := if isFrozen columns[selectedPosition.idx.toNat] = true
                      then columns[selectedPosition.idx.toNat].left + scrollLeft
                      else columns[selectedPosition.idx.toNat].left,
              top := selectedPosition.rowIdx * rowHeight,
              height := rowHeight,
              zIndex := if isFrozen columns[selectedPosition.idx.toNat] = true
                        then z.FROZEN_CELL_MASK else z.CELL_MASK } := by
    simp only [getSelectedDimensions, hcol, hlo, ge_iff_le, if_true, getRowTop]
  have hrange : getSelectedRangeDimensions z
      { topLeft := selectedPosition, bottomRight := selectedPosition } columns rowHeight
      = .ok { width := columns[selectedPosition.idx.toNat].width,
              left := columns[selectedPosition.idx.toNat].left,
              top := selectedPosition.rowIdx * rowHeight,
              height := rowHeight,
              zIndex := if isFrozen columns[selectedPosition.idx.toNat] = true
                        then z.FROZEN_CELL_MASK else z.CELL_MASK } := by
    simp only [getSelectedRangeDimensions, getColumnRangeProperties, hone, getColumnRangeLoop,
      hcol, hneg, if_false, getRowTop, zero_add, Bool.false_or, sub_self, one_mul]
  refine ⟨columns[selectedPosition.idx.toNat], _, _, List.getElem?_eq_getElem hlt, hcell,
    hrange, rfl, rfl, rfl, rfl, ?_, ?_⟩
  · rintro (hf | hs)
    · simp [hf]
    · simp [hs]
  · intro hf
    simp [hf]

/-- C12 at five columns, row height 35 and scroll offset 20, position (0, 2) in
the frozen column: the two rectangles agree except that the single-cell left
is 20 and the range left is 0. -/
theorem getSelectedRangeDimensions_single_cell_witness :
    (∃ (column : Column) (cell range : Dimensions),
      fiveColumns[(0 : Int).toNat]? = some column ∧
      getSelectedDimensions sampleZIndexes { idx := 0, rowIdx := 2 } fiveColumns 35 20
        = .ok cell ∧
      getSelectedRangeDimensions sampleZIndexes
          { topLeft := { idx := 0, rowIdx := 2 }, bottomRight := { idx := 0, rowIdx := 2 } }
          fiveColumns 35
        = .ok range ∧
      range.width = cell.width ∧ range.top = cell.top ∧ range.height = cell.height ∧
      range.zIndex = cell.zIndex ∧
      (isFrozen column = false ∨ (20 : Int) = 0 → cell.left = range.left) ∧
      (isFrozen column = true → cell.left = range.left + 20)) ∧
    getSelectedDimensions sampleZIndexes { idx := 0, rowIdx := 2 } fiveColumns 35 20
      = .ok { width := 100, left := 20, top := 70, height := 35, zIndex := 3 } ∧
    getSelectedRangeDimensions sampleZIndexes
        { topLeft := { idx := 0, rowIdx := 2 }, bottomRight := { idx := 0, rowIdx := 2 } }
        fiveColumns 35
      = .ok { width := 100, left := 0, top := 70, height := 35, zIndex := 3 } :=
  ⟨getSelectedRangeDimensions_single_cell sampleZIndexes { idx := 0, rowIdx := 2 } fiveColumns
      35 20 (by decide) (by decide),
   rfl, rfl⟩

/-- C13, as the code has it: with no columns, the selected-cell rectangle is the
zero-width placeholder for a negative idx and the call throws a TypeError on
the missing column for every idx ≥ 0; the range rectangle is the zero-width
placeholder (in the cell layer) for a negative topLeft.idx and the call
throws a TypeError on the missing column for every topLeft.idx ≥ 0. -/
theorem geometry_without_columns (z : ZIndexes) (selectedPosition : Position)
    (selectedRange : SelectedRange) (rowHeight scrollLeft : Int) :
    (selectedPosition.idx < 0 →
      getSelectedDimensions z selectedPosition [] rowHeight scrollLeft
        = .ok { width := 0, left := 0, top := 0, height := rowHeight, zIndex := 1 }) ∧
    (0 ≤ selectedPosition.idx →
      getSelectedDimensions z selectedPosition [] rowHeight scrollLeft
        = .error Fault.typeError) ∧
    (selectedRange.topLeft.idx < 0 →
      getSelectedRangeDimensions z selectedRange [] rowHeight
        = .ok { width := 0, left := 0, top := 0, height := rowHeight,
                zIndex := z.CELL_MASK }) ∧
    (0 ≤ selectedRange.topLeft.idx →
      getSelectedRangeDimensions z selectedRange [] rowHeight = .error Fault.typeError) := by
  refine ⟨?_, ?_, ?_, ?_⟩
  · intro h
    have h' : ¬ (selectedPosition.idx ≥ 0) := by omega
    simp [getSelectedDimensions, h']
  · intro h
    simp [getSelectedDimensions, h, getColumn_nil]
  · intro h
    simp [getSelectedRangeDimensions, h]
  · intro h
    have h' : ¬ (selectedRange.topLeft.idx < 0) := by omega
    simp only [getSelectedRangeDimensions, getColumnRangeProperties, h', if_false]
    cases hn : (selectedRange.bottomRight.idx - selectedRange.topLeft.idx + 1).toNat with
    | zero => simp [getColumnRangeLoop, getColumn_nil]
    | succ n => simp [getColumnRangeLoop, getColumn_nil]

/-- C13 with no columns, row height 35: idx -1 gives the placeholders, idx 0
gives a TypeError from both calls. -/
theorem geometry_without_columns_witness :
    getSelectedDimensions sampleZIndexes { idx := -1, rowIdx := 0 } [] 35 0
      = .ok { width := 0, left := 0, top := 0, height := 35, zIndex := 1 } ∧
    getSelectedDimensions sampleZIndexes { idx := 0, rowIdx := 0 } [] 35 0
      = .error Fault.typeError ∧
    getSelectedRangeDimensions sampleZIndexes
        { topLeft := { idx := -1, rowIdx := 0 }, bottomRight := { idx := 0, rowIdx := 0 } } [] 35
      = .ok { width := 0, left := 0, top := 0, height := 35,
              zIndex := sampleZIndexes.CELL_MASK } ∧
    getSelectedRangeDimensions sampleZIndexes
        { topLeft := { idx := 0, rowIdx := 0 }, bottomRight := { idx := 0, rowIdx := 0 } } [] 35
      = .error Fault.typeError :=
  ⟨(geometry_without_columns sampleZIndexes { idx := -1, rowIdx := 0 }
      { topLeft := { idx := -1, rowIdx := 0 }, bottomRight := { idx := 0, rowIdx := 0 } }
      35 0).1 (by decide),
   (geometry_without_columns sampleZIndexes { idx := 0, rowIdx := 0 }
      { topLeft := { idx := 0, rowIdx := 0 }, bottomRight := { idx := 0, rowIdx := 0 } }
      35 0).2.1 (by decide),
   (geometry_without_columns sampleZIndexes { idx := -1, rowIdx := 0 }
      { topLeft := { idx := -1, rowIdx := 0 }, bottomRight := { idx := 0, rowIdx := 0 } }
      35 0).2.2.1 (by decide),
   (geometry_without_columns sampleZIndexes { idx := 0, rowIdx := 0 }
      { topLeft := { idx := 0, rowIdx := 0 }, bottomRight := { idx := 0, rowIdx := 0 } }
      35 0).2.2.2 (by decide)⟩

/-- C13 fails as stated: with no columns and the position (0, 0), whose idx is
not negative, `getSelectedDimensions` does not return the placeholder but
throws a TypeError, and so does `getSelectedRangeDimensions` on the range from
(0, 0) to (0, 0). -/
theorem geometry_without_columns_counterexample :
    getSelectedDimensions sampleZIndexes { idx := 0, rowIdx := 0 } [] 35 0
      = .error Fault.typeError ∧
    getSelectedRangeDimensions sampleZIndexes
        { topLeft := { idx := 0, rowIdx := 0 }, bottomRight := { idx := 0, rowIdx := 0 } } [] 35
      = .error Fault.typeError :=
  ⟨rfl, rfl⟩

/-! ## Editable-cell search: invariants of a run -/

/-- The examined cell is the working cell itself, or column 0 of the row after the
start row, or the last column of the row before the start row; in the last
two cases its flag is set. -/
theorem examinedCell_cases (columns : List Column) (rowsCount rowIdx : Int) (c : Cell) :
    examinedCell columns rowsCount rowIdx c = c ∨
    examinedCell columns rowsCount rowIdx c
      = { idx := 0, rowIdx := rowIdx + 1, changeRowOrColumn := true } ∨
    examinedCell columns rowsCount rowIdx c
      = { idx := (columns.length : Int) - 1, rowIdx := rowIdx - 1, changeRowOrColumn := true } := by
  simp only [examinedCell]
  split_ifs <;> simp

/-- If the body keeps an invariant from pass to pass, and every result a pass
leaves with from an invariant cell is good, then every result of the loop
from an invariant cell is good. -/
theorem searchLoop_result_of_invariant (body : Cell → Step) (inv : Cell → Prop)
    (good : SearchResult → Prop)
    (hnext : ∀ c c', inv c → body c = Step.next c' → inv c')
    (hdone : ∀ c r, inv c → body c = Step.done r → good r) :
    ∀ (fuel : Nat) (c : Cell) (r : SearchResult),
      inv c → searchLoop body fuel c = some r → good r := by
  intro fuel
  induction fuel with
  | zero =>
    intro c r _ h
    simp [searchLoop] at h
  | succ n ih =>
    intro c r hc h
    cases hb : body c with
    | next c' =>
      simp only [searchLoop, hb] at h
      exact ih c' r (hnext c c' hc hb) h
    | done r' =>
      simp only [searchLoop, hb, Option.some.injEq] at h
      subst h
      exact hdone c r' hc hb

/-- The loop run for `k` passes up to a working cell and then for `n` more passes
gives what the loop gives from that working cell in `n` passes. -/
theorem searchLoop_of_searchState (body : Cell → Step) :
    ∀ (k n : Nat) (c0 c : Cell), searchState body k c0 = some c →
      searchLoop body (k + n) c0 = searchLoop body n c := by
  intro k
  induction k with
  | zero =>
    intro n c0 c h
    simp only [searchState, Option.some.injEq] at h
    subst h
    simp
  | succ k ih =>
    intro n c0 c h
    cases hb : body c0 with
    | next c' =>
      simp only [searchState, hb] at h
      have hk : k + 1 + n = (k + n) + 1 := by omega
      rw [hk]
      simp only [searchLoop, hb]
      exact ih n c' c h
    | done r =>
      simp [searchState, hb] at h

/-- A cell returned by a pass is the cell the pass examined. -/
theorem searchBody_found {Row : Type} (host : Host) (canEdit : Option Column → Row → Bool → Bool)
    (direction : Option Direction) (columns : List Column) (rowsCount rowIdx : Int)
    (enableCellSelect : Bool) (rowGetter : Int → Row)
    (onCheckCellIsEditable : Option (CheckArgs Row → Bool)) (c cell : Cell)
    (h : searchBody host canEdit direction columns rowsCount rowIdx enableCellSelect rowGetter
      onCheckCellIsEditable c = Step.done (SearchResult.found cell)) :
    cell = examinedCell columns rowsCount rowIdx c := by
  rw [searchBody_eq] at h
  cases hs : searchIsCellEditable host onCheckCellIsEditable
      (rowGetter (examinedCell columns rowsCount rowIdx c).rowIdx)
      (getColumn columns (examinedCell columns rowsCount rowIdx c).idx) with
  | error fault => simp [hs] at h
  | ok b =>
    simp only [hs] at h
    have hstop : ∀ cell, searchStop host ≠ SearchResult.found cell := by
      intro cell
      simp only [searchStop]
      split_ifs <;> simp
    split_ifs at h <;> simp_all

/-- A pass that reaches the end of the body leaves the working cell in the row of
the examined cell, with its flag, one column after it (forward) or before it
(backward); after a backward pass the working cell is not at or before the
first column of a row at or before the first. -/
theorem searchBody_next {Row : Type} (host : Host) (canEdit : Option Column → Row → Bool → Bool)
    (direction : Option Direction) (columns : List Column) (rowsCount rowIdx : Int)
    (enableCellSelect : Bool) (rowGetter : Int → Row)
    (onCheckCellIsEditable : Option (CheckArgs Row → Bool)) (c c' : Cell)
    (h : searchBody host canEdit direction columns rowsCount rowIdx enableCellSelect rowGetter
      onCheckCellIsEditable c = Step.next c') :
    c'.rowIdx = (examinedCell columns rowsCount rowIdx c).rowIdx ∧
    c'.changeRowOrColumn = (examinedCell columns rowsCount rowIdx c).changeRowOrColumn ∧
    (((direction = none ∨ direction = some Direction.NEXT_CELL) ∧
        c'.idx = (examinedCell columns rowsCount rowIdx c).idx + 1) ∨
      (direction = some Direction.PREV_CELL ∧
        c'.idx = (examinedCell columns rowsCount rowIdx c).idx - 1 ∧
        ¬ (c'.rowIdx ≤ 0 ∧ c'.idx ≤ 0))) := by
  rw [searchBody_eq] at h
  cases hs : searchIsCellEditable host onCheckCellIsEditable
      (rowGetter (examinedCell columns rowsCount rowIdx c).rowIdx)
      (getColumn columns (examinedCell columns rowsCount rowIdx c).idx) with
  | error fault => simp [hs] at h
  | ok b =>
    simp only [hs] at h
    split_ifs at h with h1 h2 h3 h4
    · simp only [Step.next.injEq] at h
      subst h
      exact ⟨rfl, rfl, Or.inl ⟨h2, rfl⟩⟩
    · simp only [Step.next.injEq] at h
      subst h
      have hd : direction = some Direction.PREV_CELL := by
        cases direction with
        | none => simp at h2
        | some d => cases d <;> simp_all
      exact ⟨rfl, rfl, Or.inr ⟨hd, rfl, h4⟩⟩

/-- The working cell after one more pass that reaches the end of the body. -/
theorem searchState_succ_of_next (body : Cell → Step) :
    ∀ (k : Nat) (c0 c c' : Cell), searchState body k c0 = some c → body c = Step.next c' →
      searchState body (k + 1) c0 = some c' := by
  intro k
  induction k with
  | zero =>
    intro c0 c c' h hb
    simp only [searchState, Option.some.injEq] at h
    subst h
    simp [searchState, hb]
  | succ k ih =>
    intro c0 c c' h hb
    cases hb0 : body c0 with
    | next c1 =>
      simp only [searchState, hb0] at h
      have := ih c1 c c' h hb
      simp only [searchState, hb0]
      exact this
    | done r =>
      simp [searchState, hb0] at h

/-- The body of the search loop when no override is supplied. -/
theorem searchBody_no_override {Row : Type} (host : Host)
    (canEdit : Option Column → Row → Bool → Bool)
    (direction : Option Direction) (columns : List Column) (rowsCount rowIdx : Int)
    (enableCellSelect : Bool) (rowGetter : Int → Row) (c : Cell) :
    searchBody host canEdit direction columns rowsCount rowIdx enableCellSelect rowGetter
        none c
      = if canEdit (getColumn columns (examinedCell columns rowsCount rowIdx c).idx)
            (rowGetter (examinedCell columns rowsCount rowIdx c).rowIdx) enableCellSelect
            = true then
          .done (.found (examinedCell columns rowsCount rowIdx c))
        else if direction = none ∨ direction = some Direction.NEXT_CELL then
          if (examinedCell columns rowsCount rowIdx c).rowIdx = rowsCount - 1 ∧
              (examinedCell columns rowsCount rowIdx c).idx + 1 ≥ (columns.length : Int) then
            .done (searchStop host)
          else
            .next { idx := (examinedCell columns rowsCount rowIdx c).idx + 1,
                    rowIdx := (examinedCell columns rowsCount rowIdx c).rowIdx,
                    changeRowOrColumn :=
                      (examinedCell columns rowsCount rowIdx c).changeRowOrColumn }
        else
          if (examinedCell columns rowsCount rowIdx c).rowIdx ≤ 0 ∧
              (examinedCell columns rowsCount rowIdx c).idx - 1 ≤ 0 then
            .done (searchStop host)
          else
            .next { idx := (examinedCell columns rowsCount rowIdx c).idx - 1,
                    rowIdx := (examinedCell columns rowsCount rowIdx c).rowIdx,
                    changeRowOrColumn :=
                      (examinedCell columns rowsCount rowIdx c).changeRowOrColumn } := by
  rw [searchBody_eq]
  simp only [searchIsCellEditable, Bool.and_true]

/-! ## Editable-cell search: exhaustion, rows and the navigation mode -/

/-- C19: whenever the search returns a cell, for every grid, start position,
direction, host and override, either the cell's flag is clear and its rowIdx
is the start rowIdx, or its flag is set and its rowIdx is the start rowIdx
plus one or minus one. -/
theorem getNextOrPrevEditableCell_row_adjacent {Row : Type} (fuel : Nat) (host : Host)
    (canEdit : Option Column → Row → Bool → Bool)
    (cellNavigationMode : CellNavigationMode) (direction : Option Direction)
    (columns : List Column) (rowsCount : Int) (currentPosition : Position)
    (enableCellSelect : Bool) (rowGetter : Int → Row)
    (onCheckCellIsEditable : Option (CheckArgs Row → Bool)) (cell : Cell)
    (h : getNextOrPrevEditableCell fuel host canEdit cellNavigationMode direction columns
      rowsCount currentPosition enableCellSelect rowGetter onCheckCellIsEditable
      = some (SearchResult.found cell)) :
    (cell.changeRowOrColumn = false ∧ cell.rowIdx = currentPosition.rowIdx) ∨
    (cell.changeRowOrColumn = true ∧
      (cell.rowIdx = currentPosition.rowIdx + 1 ∨ cell.rowIdx = currentPosition.rowIdx - 1)) := by
  have hexamined : ∀ c : Cell,
      ((c.changeRowOrColumn = false ∧ c.rowIdx = currentPosition.rowIdx) ∨
        (c.changeRowOrColumn = true ∧
          (c.rowIdx = currentPosition.rowIdx + 1 ∨ c.rowIdx = currentPosition.rowIdx - 1))) →
      (((examinedCell columns rowsCount currentPosition.rowIdx c).changeRowOrColumn = false ∧
          (examinedCell columns rowsCount currentPosition.rowIdx c).rowIdx
            = currentPosition.rowIdx) ∨
        ((examinedCell columns rowsCount currentPosition.rowIdx c).changeRowOrColumn = true ∧
          ((examinedCell columns rowsCount currentPosition.rowIdx c).rowIdx
              = currentPosition.rowIdx + 1 ∨
            (examinedCell columns rowsCount currentPosition.rowIdx c).rowIdx
              = currentPosition.rowIdx - 1))) := by
    intro c hc
    rcases examinedCell_cases columns rowsCount currentPosition.rowIdx c with he | he | he
    · rw [he]; exact hc
    · rw [he]; exact Or.inr ⟨rfl, Or.inl rfl⟩
    · rw [he]; exact Or.inr ⟨rfl, Or.inr rfl⟩
  unfold getNextOrPrevEditableCell at h
  exact searchLoop_result_of_invariant _
    (fun c => (c.changeRowOrColumn = false ∧ c.rowIdx = currentPosition.rowIdx) ∨
      (c.changeRowOrColumn = true ∧
        (c.rowIdx = currentPosition.rowIdx + 1 ∨ c.rowIdx = currentPosition.rowIdx - 1)))
    (fun r => ∀ cell, r = SearchResult.found cell →
      (cell.changeRowOrColumn = false ∧ cell.rowIdx = currentPosition.rowIdx) ∨
      (cell.changeRowOrColumn = true ∧
        (cell.rowIdx = currentPosition.rowIdx + 1 ∨ cell.rowIdx = currentPosition.rowIdx - 1)))
    (by
      intro c c' hc hb
      obtain ⟨hrow, hflag, _⟩ := searchBody_next _ _ _ _ _ _ _ _ _ c c' hb
      have := hexamined c hc
      rw [hrow, hflag]
      exact this)
    (by
      intro c r hc hb cell hr
      subst hr
      have := searchBody_found _ _ _ _ _ _ _ _ _ c cell hb
      rw [this]
      exact hexamined c hc)
    fuel _ _ (Or.inl ⟨rfl, rfl⟩) h cell rfl

/-- C19 at one column and three rows where only row 2 can be edited, forward from
(0, 1): the search returns (0, 2) with the flag set, one row below the start. -/
theorem getNextOrPrevEditableCell_row_adjacent_witness :
    getNextOrPrevEditableCell 2 browserHost editableInRowTwo CellNavigationMode.NONE none
        oneColumn 3 { idx := 0, rowIdx := 1 } true rowByIndex none
      = some (SearchResult.found { idx := 0, rowIdx := 2, changeRowOrColumn := true }) ∧
    ((true = false ∧ (2 : Int) = 1) ∨ (true = true ∧ ((2 : Int) = 1 + 1 ∨ (2 : Int) = 1 - 1))) :=
  ⟨rfl,
   getNextOrPrevEditableCell_row_adjacent 2 browserHost editableInRowTwo
     CellNavigationMode.NONE none oneColumn 3 { idx := 0, rowIdx := 1 } true rowByIndex none
     { idx := 0, rowIdx := 2, changeRowOrColumn := true } rfl⟩

/-- C20: two runs of the search that differ only in the navigation mode give the
same outcome under every budget of passes: the same returned cell, the same
not-found, the same fault, or the same running out of budget. -/
theorem getNextOrPrevEditableCell_mode_independent {Row : Type} (fuel : Nat) (host : Host)
    (canEdit : Option Column → Row → Bool → Bool)
    (mode1 mode2 : CellNavigationMode) (direction : Option Direction)
    (columns : List Column) (rowsCount : Int) (currentPosition : Position)
    (enableCellSelect : Bool) (rowGetter : Int → Row)
    (onCheckCellIsEditable : Option (CheckArgs Row → Bool)) :
    getNextOrPrevEditableCell fuel host canEdit mode1 direction columns rowsCount
        currentPosition enableCellSelect rowGetter onCheckCellIsEditable
      = getNextOrPrevEditableCell fuel host canEdit mode2 direction columns rowsCount
        currentPosition enableCellSelect rowGetter onCheckCellIsEditable := by
  unfold getNextOrPrevEditableCell
  rfl

/-- C20 at one column and three rows where only row 2 can be edited, forward from
(0, 1): in mode NONE and in mode LOOP_OVER_ROW alike the search wraps to the
next row and returns (0, 2) with the flag set. -/
theorem getNextOrPrevEditableCell_mode_independent_witness :
    getNextOrPrevEditableCell 2 browserHost editableInRowTwo CellNavigationMode.NONE none
        oneColumn 3 { idx := 0, rowIdx := 1 } true rowByIndex none
      = getNextOrPrevEditableCell 2 browserHost editableInRowTwo
        CellNavigationMode.LOOP_OVER_ROW none oneColumn 3 { idx := 0, rowIdx := 1 } true
        rowByIndex none ∧
    getNextOrPrevEditableCell 2 browserHost editableInRowTwo CellNavigationMode.NONE none
        oneColumn 3 { idx := 0, rowIdx := 1 } true rowByIndex none
      = some (SearchResult.found { idx := 0, rowIdx := 2, changeRowOrColumn := true }) ∧
    getNextOrPrevEditableCell 2 browserHost editableInRowTwo CellNavigationMode.LOOP_OVER_ROW
        none oneColumn 3 { idx := 0, rowIdx := 1 } true rowByIndex none
      = some (SearchResult.found { idx := 0, rowIdx := 2, changeRowOrColumn := true }) :=
  ⟨getNextOrPrevEditableCell_mode_independent 2 browserHost editableInRowTwo
     CellNavigationMode.NONE CellNavigationMode.LOOP_OVER_ROW none oneColumn 3
     { idx := 0, rowIdx := 1 } true rowByIndex none,
   rfl, rfl⟩

/-- C15, as the code has it: in a forward search with no override, on a host that
binds `stop`, let a pass start from the working cell `c` reached after `k`
passes and examine the cell `e`. If `e` cannot be edited, is on the last row
and its successor column is past the last column (columns.length ≤ e.idx + 1),
the search reports not-found in that pass; if `e` cannot be edited and this
is not so, the search goes on with the working cell one column after `e`; and
if `e` can be edited, the last cell of the grid included, the search returns
`e` in that pass. -/
theorem getNextOrPrevEditableCell_forward_exhaustion {Row : Type}
    (selectedPosition : Option Position) (canEdit : Option Column → Row → Bool → Bool)
    (cellNavigationMode : CellNavigationMode) (direction : Option Direction)
    (columns : List Column) (rowsCount : Int) (currentPosition : Position)
    (enableCellSelect : Bool) (rowGetter : Int → Row) (k fuel : Nat) (c e : Cell)
    (hdir : direction = none ∨ direction = some Direction.NEXT_CELL)
    (hstate : searchState
        (searchBody { stop := true, selectedPosition := selectedPosition } canEdit direction
          columns rowsCount currentPosition.rowIdx enableCellSelect rowGetter none)
        k { idx := currentPosition.idx, rowIdx := currentPosition.rowIdx,
            changeRowOrColumn := false }
      = some c)
    (he : e = examinedCell columns rowsCount currentPosition.rowIdx c) :
    (canEdit (getColumn columns e.idx) (rowGetter e.rowIdx) enableCellSelect = false →
      e.rowIdx = rowsCount - 1 → (columns.length : Int) ≤ e.idx + 1 →
      getNextOrPrevEditableCell (k + (fuel + 1))
          { stop := true, selectedPosition := selectedPosition } canEdit cellNavigationMode
          direction columns rowsCount currentPosition enableCellSelect rowGetter none
        = some SearchResult.notFound) ∧
    (canEdit (getColumn columns e.idx) (rowGetter e.rowIdx) enableCellSelect = false →
      ¬ (e.rowIdx = rowsCount - 1 ∧ (columns.length : Int) ≤ e.idx + 1) →
      searchState
          (searchBody { stop := true, selectedPosition := selectedPosition } canEdit direction
            columns rowsCount currentPosition.rowIdx enableCellSelect rowGetter none)
          (k + 1) { idx := currentPosition.idx, rowIdx := currentPosition.rowIdx,
                    changeRowOrColumn := false }
        = some { idx := e.idx + 1, rowIdx := e.rowIdx,
                 changeRowOrColumn := e.changeRowOrColumn }) ∧
    (canEdit (getColumn columns e.idx) (rowGetter e.rowIdx) enableCellSelect = true →
      getNextOrPrevEditableCell (k + (fuel + 1))
          { stop := true, selectedPosition := selectedPosition } canEdit cellNavigationMode
          direction columns rowsCount currentPosition enableCellSelect rowGetter none
        = some (SearchResult.found e)) := by
  subst he
  have hbody := searchBody_no_override { stop := true, selectedPosition := selectedPosition }
    canEdit direction columns rowsCount currentPosition.rowIdx enableCellSelect rowGetter c
  refine ⟨?_, ?_, ?_⟩
  · intro hedit hrow hidx
    unfold getNextOrPrevEditableCell
    rw [searchLoop_of_searchState _ k (fuel + 1) _ c hstate]
    apply searchLoop_done
    rw [hbody, if_neg (by simp [hedit]), if_pos hdir, if_pos ⟨hrow, hidx⟩]
    rfl
  · intro hedit hguard
    apply searchState_succ_of_next _ k _ c _ hstate
    rw [hbody, if_neg (by simp [hedit]), if_pos hdir, if_neg hguard]
  · intro hedit
    unfold getNextOrPrevEditableCell
    rw [searchLoop_of_searchState _ k (fuel + 1) _ c hstate]
    apply searchLoop_done
    rw [hbody, if_pos hedit]

/-- C15 at two columns and one row, forward from (0, 0), on a browser-like host.
When no cell can be edited, the first pass examines (0, 0) and goes on to
(1, 0), and the second pass examines the last cell (1, 0) and reports
not-found. When the column with key "b" can be edited, the second pass
returns the last cell (1, 0). -/
theorem getNextOrPrevEditableCell_forward_exhaustion_witness :
    searchState
        (searchBody { stop := true, selectedPosition := none } neverEditable none twoColumns 1 0
          true rowByIndex none)
        (0 + 1) { idx := 0, rowIdx := 0, changeRowOrColumn := false }
      = some { idx := 0 + 1, rowIdx := 0, changeRowOrColumn := false } ∧
    getNextOrPrevEditableCell (1 + (0 + 1)) { stop := true, selectedPosition := none }
        neverEditable CellNavigationMode.CHANGE_ROW none twoColumns 1 { idx := 0, rowIdx := 0 }
        true rowByIndex none
      = some SearchResult.notFound ∧
    getNextOrPrevEditableCell (1 + (0 + 1)) { stop := true, selectedPosition := none }
        editableInColumnB CellNavigationMode.CHANGE_ROW none twoColumns 1
        { idx := 0, rowIdx := 0 } true rowByIndex none
      = some (SearchResult.found { idx := 1, rowIdx := 0, changeRowOrColumn := false }) :=
  ⟨(getNextOrPrevEditableCell_forward_exhaustion none neverEditable
      CellNavigationMode.CHANGE_ROW none twoColumns 1 { idx := 0, rowIdx := 0 } true rowByIndex
      0 0 { idx := 0, rowIdx := 0, changeRowOrColumn := false }
      { idx := 0, rowIdx := 0, changeRowOrColumn := false } (Or.inl rfl) rfl rfl).2.1
      rfl (by decide),
   (getNextOrPrevEditableCell_forward_exhaustion none neverEditable
      CellNavigationMode.CHANGE_ROW none twoColumns 1 { idx := 0, rowIdx := 0 } true rowByIndex
      1 0 { idx := 1, rowIdx := 0, changeRowOrColumn := false }
      { idx := 1, rowIdx := 0, changeRowOrColumn := false } (Or.inl rfl) rfl rfl).1
      rfl (by decide) (by decide),
   (getNextOrPrevEditableCell_forward_exhaustion none editableInColumnB
      CellNavigationMode.CHANGE_ROW none twoColumns 1 { idx := 0, rowIdx := 0 } true rowByIndex
      1 0 { idx := 1, rowIdx := 0, changeRowOrColumn := false }
      { idx := 1, rowIdx := 0, changeRowOrColumn := false } (Or.inl rfl) rfl rfl).2.2
      rfl⟩

/-- C15 fails as stated: at two columns and one row where only the column with
key "b" can be edited, a forward search from the non-editable start (0, 0)
returns the cell (1, 0), which is the last column of the last row and is not
the start position. -/
theorem getNextOrPrevEditableCell_forward_exhaustion_counterexample :
    editableInColumnB (getColumn twoColumns 0) (rowByIndex 0) true = false ∧
    ((twoColumns.length : Int) - 1 = 1 ∧ (1 : Int) - 1 = 0) ∧
    getNextOrPrevEditableCell 2 browserHost editableInColumnB CellNavigationMode.CHANGE_ROW
        none twoColumns 1 { idx := 0, rowIdx := 0 } true rowByIndex none
      = some (SearchResult.found { idx := 1, rowIdx := 0, changeRowOrColumn := false }) :=
  ⟨rfl, ⟨rfl, rfl⟩, rfl⟩

/-- C16, as the code has it: in a backward search (direction PREV_CELL), let a
pass start from the working cell `c` reached after `k` passes and examine the
cell `e`, with no override on a host that binds `stop`. If `e` cannot be
edited and stepping back from it leads at or before the first column of a row
at or before the first (e.rowIdx ≤ 0 and e.idx - 1 ≤ 0), the search reports
not-found in that pass; if `e` cannot be edited and this is not so, the search
goes on with the working cell one column before `e`. Hence, in a grid with at
least two columns, a backward search from a start position with rowIdx ≥ 0
other than (0, 0) never returns the cell (0, 0), on every host and with every
override, whether or not cell (0, 0) can be edited. -/
theorem getNextOrPrevEditableCell_backward_exhaustion {Row : Type}
    (selectedPosition : Option Position) (canEdit : Option Column → Row → Bool → Bool)
    (cellNavigationMode : CellNavigationMode)
    (columns : List Column) (rowsCount : Int) (currentPosition : Position)
    (enableCellSelect : Bool) (rowGetter : Int → Row) (k fuel : Nat) (c e : Cell)
    (hstate : searchState
        (searchBody { stop := true, selectedPosition := selectedPosition } canEdit
          (some Direction.PREV_CELL) columns rowsCount currentPosition.rowIdx enableCellSelect
          rowGetter none)
        k { idx := currentPosition.idx, rowIdx := currentPosition.rowIdx,
            changeRowOrColumn := false }
      = some c)
    (he : e = examinedCell columns rowsCount currentPosition.rowIdx c) :
    (canEdit (getColumn columns e.idx) (rowGetter e.rowIdx) enableCellSelect = false →
      e.rowIdx ≤ 0 → e.idx - 1 ≤ 0 →
      getNextOrPrevEditableCell (k + (fuel + 1))
          { stop := true, selectedPosition := selectedPosition } canEdit cellNavigationMode
          (some Direction.PREV_CELL) columns rowsCount currentPosition enableCellSelect
          rowGetter none
        = some SearchResult.notFound) ∧
    (canEdit (getColumn columns e.idx) (rowGetter e.rowIdx) enableCellSelect = false →
      ¬ (e.rowIdx ≤ 0 ∧ e.idx - 1 ≤ 0) →
      searchState
          (searchBody { stop := true, selectedPosition := selectedPosition } canEdit
            (some Direction.PREV_CELL) columns rowsCount currentPosition.rowIdx
            enableCellSelect rowGetter none)
          (k + 1) { idx := currentPosition.idx, rowIdx := currentPosition.rowIdx,
                    changeRowOrColumn := false }
        = some { idx := e.idx - 1, rowIdx := e.rowIdx,
                 changeRowOrColumn := e.changeRowOrColumn }) ∧
    (2 ≤ columns.length → 0 ≤ currentPosition.rowIdx →
      ¬ (currentPosition.idx = 0 ∧ currentPosition.rowIdx = 0) →
      ∀ (host : Host) (onCheckCellIsEditable : Option (CheckArgs Row → Bool)) (n : Nat)
        (cell : Cell),
        getNextOrPrevEditableCell n host canEdit cellNavigationMode
            (some Direction.PREV_CELL) columns rowsCount currentPosition enableCellSelect
            rowGetter onCheckCellIsEditable
          = some (SearchResult.found cell) →
        ¬ (cell.idx = 0 ∧ cell.rowIdx = 0)) := by
  subst he
  have hbody := searchBody_no_override { stop := true, selectedPosition := selectedPosition }
    canEdit (some Direction.PREV_CELL) columns rowsCount currentPosition.rowIdx
    enableCellSelect rowGetter c
  have hdir : ¬ ((some Direction.PREV_CELL : Option Direction) = none ∨
      (some Direction.PREV_CELL : Option Direction) = some Direction.NEXT_CELL) := by
    simp
  refine ⟨?_, ?_, ?_⟩
  · intro hedit hrow hidx
    unfold getNextOrPrevEditableCell
    rw [searchLoop_of_searchState _ k (fuel + 1) _ c hstate]
    apply searchLoop_done
    rw [hbody, if_neg (by simp [hedit]), if_neg hdir, if_pos ⟨hrow, hidx⟩]
    rfl
  · intro hedit hguard
    apply searchState_succ_of_next _ k _ c _ hstate
    rw [hbody, if_neg (by simp [hedit]), if_neg hdir, if_neg hguard]
  · intro hcols hrow hstart host onCheckCellIsEditable n cell hfound
    have hlen : (2 : Int) ≤ (columns.length : Int) := by exact_mod_cast hcols
    have hexamined : ∀ w : Cell, ¬ (w.idx = 0 ∧ w.rowIdx = 0) →
        ¬ ((examinedCell columns rowsCount currentPosition.rowIdx w).idx = 0 ∧
          (examinedCell columns rowsCount currentPosition.rowIdx w).rowIdx = 0) := by
      intro w hw
      rcases examinedCell_cases columns rowsCount currentPosition.rowIdx w with h | h | h
      · rw [h]; exact hw
      · rw [h]
        simp only
        omega
      · rw [h]
        simp only
        omega
    unfold getNextOrPrevEditableCell at hfound
    exact searchLoop_result_of_invariant _
      (fun w => ¬ (w.idx = 0 ∧ w.rowIdx = 0))
      (fun r => ∀ cell, r = SearchResult.found cell → ¬ (cell.idx = 0 ∧ cell.rowIdx = 0))
      (by
        intro w w' _ hb
        obtain ⟨_, _, hcase⟩ := searchBody_next _ _ _ _ _ _ _ _ _ w w' hb
        rcases hcase with ⟨hd, _⟩ | ⟨_, _, hguard⟩
        · simp at hd
        · intro hw'
          exact hguard ⟨le_of_eq hw'.2, le_of_eq hw'.1⟩)
      (by
        intro w r hw hb cell hr
        subst hr
        have := searchBody_found _ _ _ _ _ _ _ _ _ w cell hb
        rw [this]
        exact hexamined w hw)
      n _ _ hstart hfound cell rfl

/-- C16 on a browser-like host. At two columns and one row where only the column
with key "a" can be edited, backward from the non-editable start (1, 0): cell
(0, 0) can be edited, and the first pass reports not-found without examining
it. At two columns and two rows where only row 0 can be edited, backward from
(0, 1): the search returns (1, 0), not (0, 0). -/
theorem getNextOrPrevEditableCell_backward_exhaustion_witness :
    editableInColumnA (getColumn twoColumns 0) (rowByIndex 0) true = true ∧
    getNextOrPrevEditableCell (0 + (0 + 1)) { stop := true, selectedPosition := none }
        editableInColumnA CellNavigationMode.CHANGE_ROW (some Direction.PREV_CELL) twoColumns 1
        { idx := 1, rowIdx := 0 } true rowByIndex none
      = some SearchResult.notFound ∧
    getNextOrPrevEditableCell 2 browserHost editableInRowZero CellNavigationMode.CHANGE_ROW
        (some Direction.PREV_CELL) twoColumns 2 { idx := 0, rowIdx := 1 } true rowByIndex none
      = some (SearchResult.found { idx := 1, rowIdx := 0, changeRowOrColumn := true }) ∧
    ¬ ((1 : Int) = 0 ∧ (0 : Int) = 0) :=
  ⟨rfl,
   (getNextOrPrevEditableCell_backward_exhaustion none editableInColumnA
      CellNavigationMode.CHANGE_ROW twoColumns 1 { idx := 1, rowIdx := 0 } true rowByIndex
      0 0 { idx := 1, rowIdx := 0, changeRowOrColumn := false }
      { idx := 1, rowIdx := 0, changeRowOrColumn := false } rfl rfl).1
      rfl (by decide) (by decide),
   rfl,
   (getNextOrPrevEditableCell_backward_exhaustion none editableInRowZero
      CellNavigationMode.CHANGE_ROW twoColumns 2 { idx := 0, rowIdx := 1 } true rowByIndex
      0 0 { idx := 0, rowIdx := 1, changeRowOrColumn := false }
      { idx := 0, rowIdx := 1, changeRowOrColumn := false } rfl rfl).2.2
      (by decide) (by decide) (by decide) browserHost none 2
      { idx := 1, rowIdx := 0, changeRowOrColumn := true } rfl⟩

/-- C16 fails as stated: at one column and two rows where only row 0 can be
edited, a backward search from the non-editable start (0, 1) steps before the
first column, wraps to the last column of row 0, which is column 0, and
returns the cell (0, 0), which is not the start position. -/
theorem getNextOrPrevEditableCell_backward_exhaustion_counterexample :
    editableInRowZero (getColumn oneColumn 0) (rowByIndex 1) true = false ∧
    getNextOrPrevEditableCell 2 browserHost editableInRowZero CellNavigationMode.CHANGE_ROW
        (some Direction.PREV_CELL) oneColumn 2 { idx := 0, rowIdx := 1 } true rowByIndex none
      = some (SearchResult.found { idx := 0, rowIdx := 0, changeRowOrColumn := true }) :=
  ⟨rfl, rfl⟩

end SelectedCellUtils
